import Mathlib

set_option linter.unusedVariables false

/-!
# Verification of the TLS 1.3 handshake message handlers (ssl/tls13_both.cc)

A shallow embedding of the message handlers in
`src/third_party/boringssl/src/ssl/tls13_both.cc`:

* `tls13_get_cert_verify_signature_input` — CertificateVerify signature input;
* `tls13_process_certificate` — Certificate message decoding;
* `tls13_process_certificate_verify` — CertificateVerify processing;
* `tls13_process_finished` — Finished verification;
* `tls13_add_certificate` — Certificate message encoding;
* `tls13_receive_key_update` / `tls13_post_handshake` — post-handshake
  dispatch and the KeyUpdate sub-protocol.

Byte strings are `List Nat` (a genuine wire byte is `< 256`; hypotheses state
this where it matters).  The CBS/CBB helpers from `openssl/bytestring` that the
file uses are embedded directly.  External collaborators (public-key parsing,
key-usage checks, SCT validation, the session cache, the finished MAC, the
ticket handler) are parameters, matching the narrow contracts they have in the
source.  Traffic-key rotation is modelled as an epoch counter per direction
(`rotate_traffic_key(direction)` in the collaborator contract).
-/

namespace Tls13Both

/-! ## Wire constants (openssl/ssl.h, ssl3.h, tls1.h) -/

def SSL3_AL_FATAL : Nat := 2
def SSL_AD_UNEXPECTED_MESSAGE : Nat := 10
def SSL_AD_ILLEGAL_PARAMETER : Nat := 47
def SSL_AD_DECODE_ERROR : Nat := 50
def SSL_AD_DECRYPT_ERROR : Nat := 51
def SSL_AD_INTERNAL_ERROR : Nat := 80
def SSL_AD_UNSUPPORTED_EXTENSION : Nat := 110
def SSL_AD_CERTIFICATE_REQUIRED : Nat := 116

def SSL3_MT_NEW_SESSION_TICKET : Nat := 4
def SSL3_MT_CERTIFICATE : Nat := 11
def SSL3_MT_CERTIFICATE_VERIFY : Nat := 15
def SSL3_MT_FINISHED : Nat := 20
def SSL3_MT_KEY_UPDATE : Nat := 24

def SSL_KEY_UPDATE_NOT_REQUESTED : Nat := 0
def SSL_KEY_UPDATE_REQUESTED : Nat := 1

def TLSEXT_TYPE_status_request : Nat := 5
def TLSEXT_TYPE_certificate_timestamp : Nat := 18
def TLSEXT_STATUSTYPE_ocsp : Nat := 1

def X509_V_OK : Nat := 0

/-- kMaxKeyUpdates: the number of consecutive KeyUpdates that will be
processed. -/
def kMaxKeyUpdates : Nat := 32

/-- Error-queue reason codes pushed by `OPENSSL_PUT_ERROR` in this file,
as an enumeration (the numeric values live in headers outside the file). -/
inductive Reason where
  | decode_error
  | cert_length_mismatch
  | unexpected_extension
  | error_parsing_extension
  | duplicate_extension
  | peer_did_not_return_a_certificate
  | bad_signature
  | digest_check_failed
  | too_many_key_updates
  | unexpected_message
  | internal_error
  deriving DecidableEq, Repr

/-! ## CBS (read) and CBB (write) byte-string primitives -/

/-- Big-endian value of a byte string (`CBS_get_u16`/`u24` accumulation). -/
def beVal (bs : List Nat) : Nat :=
  bs.foldl (fun acc b => acc * 256 + b) 0

/-- Big-endian encoding of `v` in exactly `n` bytes (truncating mod 256^n),
as `CBB_add_u16`/`CBB_add_u24` write it. -/
def beBytes : Nat → Nat → List Nat
  | 0, _ => []
  | n + 1, v => beBytes n (v / 256) ++ [v % 256]

/-- `CBS_get_u8`: read one byte. -/
def cbsGetU8 : List Nat → Option (Nat × List Nat)
  | [] => none
  | b :: rest => some (b, rest)

/-- `CBS_get_u16`: read a big-endian 16-bit value. -/
def cbsGetU16 (bs : List Nat) : Option (Nat × List Nat) :=
  match bs with
  | b0 :: b1 :: rest => some (b0 * 256 + b1, rest)
  | _ => none

/-- `CBS_get_u8_length_prefixed` / `u16` / `u24`: read an `n`-byte big-endian
length `L`, then `L` bytes of contents; the remainder follows. -/
def cbsGetPrefixed (n : Nat) (bs : List Nat) : Option (List Nat × List Nat) :=
  if n ≤ bs.length ∧ beVal (bs.take n) ≤ (bs.drop n).length then
    some ((bs.drop n).take (beVal (bs.take n)), (bs.drop n).drop (beVal (bs.take n)))
  else none

/-- `CBB_add_uN_length_prefixed` followed by the contents: an `n`-byte
big-endian length prefix and the contents themselves. -/
def cbbAddPrefixed (n : Nat) (contents : List Nat) : List Nat :=
  beBytes n contents.length ++ contents

/-! ## Connection and session state -/

/-- The `SSL_SESSION` fields populated by this file (`hs->new_session`).
`certs = none` models the explicit null certificate list, distinct from
`some []`. -/
structure SSLSession where
  certs : Option (List (List Nat)) := none
  ocsp_response : Option (List Nat) := none
  sct_list : Option (List Nat) := none
  verify_result : Nat := 1
  peer_sha256 : List Nat := []
  peer_sha256_valid : Bool := false
  peer_signature_algorithm : Nat := 0
  deriving DecidableEq

/-- The slice of `SSL`/`SSL_HANDSHAKE` state that the handlers in this file
read and write.  Traffic keys are modelled as per-direction epoch counters;
`alerts` and `sent` record what was handed to the transport, in order. -/
structure SSLConn where
  server : Bool := false
  init_msg : List Nat := []
  message_type : Nat := 0
  key_update_count : Nat := 0
  key_update_pending : Bool := false
  read_epoch : Nat := 0
  write_epoch : Nat := 0
  alerts : List (Nat × Nat) := []
  sent : List (Nat × List Nat) := []
  errors : List Reason := []
  session : SSLSession := {}
  peer_pubkey : Option Nat := none
  transcript_hash : List Nat := []
  expected_client_finished : List Nat := []
  hash_len : Nat := 0
  retain_only_sha256_of_client_certs : Bool := false
  ocsp_stapling_enabled : Bool := false
  signed_cert_timestamps_enabled : Bool := false
  cert_chain : Option (List (List Nat)) := none
  cert_ocsp : Option (List Nat) := none
  cert_sct : Option (List Nat) := none
  scts_requested : Bool := false
  ocsp_stapling_requested : Bool := false
  deriving DecidableEq

/-- `ssl3_send_alert`: queue an alert record for the transport. -/
def sendAlert (c : SSLConn) (level ad : Nat) : SSLConn :=
  { c with alerts := c.alerts ++ [(level, ad)] }

/-- `OPENSSL_PUT_ERROR`: push a reason code on the error queue. -/
def putError (c : SSLConn) (r : Reason) : SSLConn :=
  { c with errors := c.errors ++ [r] }

/-- `init_message` + `ssl_add_message_cbb`: queue a handshake message. -/
def addMessage (c : SSLConn) (mt : Nat) (body : List Nat) : SSLConn :=
  { c with sent := c.sent ++ [(mt, body)] }

inductive AeadDirection where
  | evp_aead_open
  | evp_aead_seal
  deriving DecidableEq

/-- `tls13_rotate_traffic_key` (key-schedule collaborator,
`rotate_traffic_key(direction)`): advance the epoch of one direction. -/
def tls13_rotate_traffic_key (c : SSLConn) : AeadDirection → SSLConn
  | .evp_aead_open => { c with read_epoch := c.read_epoch + 1 }
  | .evp_aead_seal => { c with write_epoch := c.write_epoch + 1 }

/-! ## KeyUpdate sub-protocol -/

/-- `tls13_receive_key_update` (tls13_both.cc lines 588–625). -/
def tls13_receive_key_update (ssl : SSLConn) : SSLConn × Bool :=
  match cbsGetU8 ssl.init_msg with
  | none =>
    (sendAlert (putError ssl .decode_error) SSL3_AL_FATAL SSL_AD_DECODE_ERROR, false)
  | some (key_update_request, rest) =>
    if rest.length ≠ 0 ∨
        (key_update_request ≠ SSL_KEY_UPDATE_NOT_REQUESTED ∧
         key_update_request ≠ SSL_KEY_UPDATE_REQUESTED) then
      (sendAlert (putError ssl .decode_error) SSL3_AL_FATAL SSL_AD_DECODE_ERROR, false)
    else
      let ssl1 := tls13_rotate_traffic_key ssl .evp_aead_open
      if key_update_request = SSL_KEY_UPDATE_REQUESTED ∧
          ssl1.key_update_pending = false then
        let ssl2 := addMessage ssl1 SSL3_MT_KEY_UPDATE [SSL_KEY_UPDATE_NOT_REQUESTED]
        let ssl3 := tls13_rotate_traffic_key ssl2 .evp_aead_seal
        ({ ssl3 with key_update_pending := true }, true)
      else
        (ssl1, true)

/-- `tls13_post_handshake` (tls13_both.cc lines 627–649).
`tls13_process_new_session_ticket` lives in another translation unit and is a
parameter. -/
def tls13_post_handshake (processNewSessionTicket : SSLConn → SSLConn × Bool)
    (ssl : SSLConn) : SSLConn × Bool :=
  if ssl.message_type = SSL3_MT_KEY_UPDATE then
    let ssl1 := { ssl with key_update_count := ssl.key_update_count + 1 }
    if ssl1.key_update_count > kMaxKeyUpdates then
      (sendAlert (putError ssl1 .too_many_key_updates) SSL3_AL_FATAL
        SSL_AD_UNEXPECTED_MESSAGE, false)
    else
      tls13_receive_key_update ssl1
  else
    let ssl1 := { ssl with key_update_count := 0 }
    if ssl1.message_type = SSL3_MT_NEW_SESSION_TICKET ∧ ssl1.server = false then
      processNewSessionTicket ssl1
    else
      (putError (sendAlert ssl1 SSL3_AL_FATAL SSL_AD_UNEXPECTED_MESSAGE)
        .unexpected_message, false)

/-! ## Signature input builder -/

/-- `enum ssl_cert_verify_context_t`. -/
inductive CertVerifyContextT where
  | ssl_cert_verify_server
  | ssl_cert_verify_client
  | ssl_cert_verify_channel_id
  deriving DecidableEq

/-- The byte content of a C string literal, without the terminating NUL. -/
def strBytes (s : String) : List Nat := s.data.map Char.toNat

/-- The fixed context string selected by the verify context.  `sizeof` of the
C literal counts the terminating NUL byte, so it is included. -/
def certVerifyContextBytes : CertVerifyContextT → List Nat
  | .ssl_cert_verify_server => strBytes "TLS 1.3, server CertificateVerify" ++ [0]
  | .ssl_cert_verify_client => strBytes "TLS 1.3, client CertificateVerify" ++ [0]
  | .ssl_cert_verify_channel_id => strBytes "TLS 1.3, Channel ID" ++ [0]

/-- The `for (i < 64) CBB_add_u8(cbb, 0x20)` loop, as iterated appends. -/
def addPadLoop : Nat → List Nat → List Nat
  | 0, acc => acc
  | n + 1, acc => addPadLoop n (acc ++ [0x20])

/-- `tls13_get_cert_verify_signature_input` (tls13_both.cc lines 141–192):
64 pad bytes, the NUL-terminated context string, then the transcript hash. -/
def tls13_get_cert_verify_signature_input (transcript_hash : List Nat)
    (cert_verify_context : CertVerifyContextT) : List Nat :=
  addPadLoop 64 [] ++ certVerifyContextBytes cert_verify_context ++ transcript_hash

/-! ## Finished verification -/

/-- The comparison `ssl->init_num == verify_data_len &&
CRYPTO_memcmp(verify_data, ssl->init_msg, verify_data_len) == 0` together
with the fatal decrypt-error path (lines 428–438). -/
def finishedCompare (hs : SSLConn) (verify_data : List Nat) : SSLConn × Bool :=
  if hs.init_msg = verify_data then
    (hs, true)
  else
    (putError (sendAlert hs SSL3_AL_FATAL SSL_AD_DECRYPT_ERROR)
      .digest_check_failed, false)

/-- `tls13_process_finished` (lines 411–441).  `tls13_finished_mac` is the
key-schedule collaborator computing the expected MAC for a role; on the saved
path the expected value is the first `hash_len` bytes of
`hs->expected_client_finished`. -/
def tls13_process_finished (finished_mac : Bool → Option (List Nat))
    (hs : SSLConn) (use_saved_value : Bool) : SSLConn × Bool :=
  if use_saved_value then
    finishedCompare hs (hs.expected_client_finished.take hs.hash_len)
  else
    match finished_mac (!hs.server) with
    | none => (hs, false)
    | some verify_data => finishedCompare hs verify_data

/-! ## CertificateVerify processing -/

/-- Line 383: record the peer signature algorithm on the session. -/
def setPeerSigAlg (hs : SSLConn) (alg : Nat) : SSLConn :=
  { hs with session := { hs.session with peer_signature_algorithm := alg } }

/-- `tls13_process_certificate_verify` (lines 360–409).
`tls12_check_peer_sigalg` is the peer-signature-algorithm policy collaborator
(`some alert` on rejection); `ssl_public_key_verify` is the asymmetric-crypto
collaborator, applied to the signature, the algorithm, the peer key and the
signature input. -/
def tls13_process_certificate_verify
    (check_peer_sigalg : Nat → Option Nat)
    (public_key_verify : List Nat → Nat → Nat → List Nat → Bool)
    (hs : SSLConn) : SSLConn × Bool :=
  match hs.peer_pubkey with
  | none => (putError hs .internal_error, false)
  | some peer_pubkey =>
    match cbsGetU16 hs.init_msg with
    | none =>
      (sendAlert (putError hs .decode_error) SSL3_AL_FATAL SSL_AD_DECODE_ERROR, false)
    | some (signature_algorithm, rest) =>
      match cbsGetPrefixed 2 rest with
      | none =>
        (sendAlert (putError hs .decode_error) SSL3_AL_FATAL SSL_AD_DECODE_ERROR, false)
      | some (signature, rest2) =>
        if rest2.length ≠ 0 then
          (sendAlert (putError hs .decode_error) SSL3_AL_FATAL SSL_AD_DECODE_ERROR, false)
        else
          match check_peer_sigalg signature_algorithm with
          | some alert => (sendAlert hs SSL3_AL_FATAL alert, false)
          | none =>
            if public_key_verify signature signature_algorithm peer_pubkey
                (tls13_get_cert_verify_signature_input hs.transcript_hash
                  (if hs.server then .ssl_cert_verify_client
                   else .ssl_cert_verify_server)) then
              (setPeerSigAlg hs signature_algorithm, true)
            else
              (sendAlert (putError (setPeerSigAlg hs signature_algorithm)
                .bad_signature) SSL3_AL_FATAL SSL_AD_DECRYPT_ERROR, false)

/-! ## Certificate message decoding -/

/-- Collaborators used by `tls13_process_certificate`:
`ssl_cert_parse_pubkey`, `ssl_cert_check_digital_signature_key_usage`,
`ssl_is_sct_list_valid`, `x509_method->session_cache_objects` and `SHA256`
all live outside this translation unit. -/
structure CertCallbacks where
  parse_pubkey : List Nat → Option Nat
  check_key_usage : List Nat → Bool
  sct_valid : List Nat → Bool
  cache_objects : SSLSession → Bool
  sha256 : List Nat → List Nat

/-- Modelled from the spec: `ssl_parse_extensions` (ssl/t1_lib.cc, outside
this snapshot).  "Extension parsing uses an allow-list of two recognized
types (status-request, certificate-timestamp/SCT); unknown types are rejected
outright (no silent skip)."  Each extension is a 16-bit type followed by a
16-bit-length-prefixed body; a truncated extension keeps the caller's default
decode-error alert, an unknown type yields an unsupported-extension alert,
and a repeated type an illegal-parameter alert.  On success the bodies of the
two recognized extensions found so far are returned. -/
def ssl_parse_extensions (bs : List Nat)
    (status_request : Option (List Nat)) (sct : Option (List Nat)) :
    Except Nat (Option (List Nat) × Option (List Nat)) :=
  if bs.isEmpty then .ok (status_request, sct)
  else
    match h1 : cbsGetU16 bs with
    | none => .error SSL_AD_DECODE_ERROR
    | some (ext_type, rest) =>
      match h2 : cbsGetPrefixed 2 rest with
      | none => .error SSL_AD_DECODE_ERROR
      | some (body, rest2) =>
        if ext_type = TLSEXT_TYPE_status_request then
          if status_request.isSome then .error SSL_AD_ILLEGAL_PARAMETER
          else ssl_parse_extensions rest2 (some body) sct
        else if ext_type = TLSEXT_TYPE_certificate_timestamp then
          if sct.isSome then .error SSL_AD_ILLEGAL_PARAMETER
          else ssl_parse_extensions rest2 status_request (some body)
        else .error SSL_AD_UNSUPPORTED_EXTENSION
termination_by bs.length
decreasing_by
  all_goals
    have key2 : ∀ (xs c r : List Nat), cbsGetPrefixed 2 xs = some (c, r) →
        2 + c.length + r.length = xs.length := by
      intro xs c r h
      unfold cbsGetPrefixed at h
      split at h
      · rename_i hcond
        injection h with h
        injection h with hc hr
        subst hc
        subst hr
        simp only [List.length_take, List.length_drop]
        omega
      · cases h
    have keyU : ∀ (xs : List Nat) (v : Nat) (r : List Nat),
        cbsGetU16 xs = some (v, r) → r.length + 2 = xs.length := by
      intro xs v r h
      unfold cbsGetU16 at h
      split at h
      · rename_i b0 b1 rr
        injection h with h
        injection h with hv hr
        subst hr
        simp only [List.length_cons]
      · cases h
    have hu := keyU bs ext_type rest h1
    have hp := key2 rest body rest2 h2
    omega

/-- Lines 275–299 of `tls13_process_certificate`: the status-request
extension.  `is_leaf` is `sk_CRYPTO_BUFFER_num(certs) == 1` at stow time. -/
def handleStatusRequest (ssl : SSLConn) (is_leaf : Bool) :
    Option (List Nat) → SSLConn × Bool
  | none => (ssl, true)
  | some status_request =>
    if ssl.server = true ∨ ssl.ocsp_stapling_enabled = false then
      (sendAlert (putError ssl .unexpected_extension) SSL3_AL_FATAL
        SSL_AD_UNSUPPORTED_EXTENSION, false)
    else
      match cbsGetU8 status_request with
      | none => (sendAlert ssl SSL3_AL_FATAL SSL_AD_DECODE_ERROR, false)
      | some (status_type, rest) =>
        if status_type ≠ TLSEXT_STATUSTYPE_ocsp then
          (sendAlert ssl SSL3_AL_FATAL SSL_AD_DECODE_ERROR, false)
        else
          match cbsGetPrefixed 3 rest with
          | none => (sendAlert ssl SSL3_AL_FATAL SSL_AD_DECODE_ERROR, false)
          | some (ocsp_response, rest2) =>
            if ocsp_response.length = 0 ∨ rest2.length ≠ 0 then
              (sendAlert ssl SSL3_AL_FATAL SSL_AD_DECODE_ERROR, false)
            else if is_leaf then
              ({ ssl with session :=
                { ssl.session with ocsp_response := some ocsp_response } }, true)
            else
              (ssl, true)

/-- Lines 301–321 of `tls13_process_certificate`: the SCT extension. -/
def handleSct (cb : CertCallbacks) (ssl : SSLConn) (is_leaf : Bool) :
    Option (List Nat) → SSLConn × Bool
  | none => (ssl, true)
  | some sct =>
    if ssl.server = true ∨ ssl.signed_cert_timestamps_enabled = false then
      (sendAlert (putError ssl .unexpected_extension) SSL3_AL_FATAL
        SSL_AD_UNSUPPORTED_EXTENSION, false)
    else if cb.sct_valid sct = false then
      (sendAlert (putError ssl .error_parsing_extension) SSL3_AL_FATAL
        SSL_AD_DECODE_ERROR, false)
    else if is_leaf then
      ({ ssl with session := { ssl.session with sct_list := some sct } }, true)
    else
      (ssl, true)

/-- Lines 257–321: parse one entry's extension block and handle the two
recognized extensions.  All entries are parsed and validated the same way;
`is_leaf` only gates the stores into the session. -/
def processCertEntryExtensions (cb : CertCallbacks) (ssl : SSLConn)
    (is_leaf : Bool) (extensions : List Nat) : SSLConn × Bool :=
  match ssl_parse_extensions extensions none none with
  | .error alert => (sendAlert ssl SSL3_AL_FATAL alert, false)
  | .ok (status_request, sct) =>
    match handleStatusRequest ssl is_leaf status_request with
    | (ssl1, false) => (ssl1, false)
    | (ssl1, true) => handleSct cb ssl1 is_leaf sct

/-- Lines 227–246 of `tls13_process_certificate`: the leaf-only public-key
parse, key-usage check and retained leaf hash.  `is_first` is
`sk_CRYPTO_BUFFER_num(certs) == 0`.  The failed connection is returned on the
left (alert already recorded); otherwise the possibly updated connection and
the leaf key. -/
def processLeafChecks (cb : CertCallbacks) (ssl : SSLConn)
    (retain_sha256 : Bool) (is_first : Bool) (pkey : Option Nat)
    (certificate : List Nat) : SSLConn ⊕ (SSLConn × Option Nat) :=
  if is_first then
    match cb.parse_pubkey certificate with
    | none =>
      .inl (sendAlert (putError ssl .decode_error) SSL3_AL_FATAL
        SSL_AD_DECODE_ERROR)
    | some pk =>
      if cb.check_key_usage certificate = false then
        .inl (sendAlert ssl SSL3_AL_FATAL SSL_AD_ILLEGAL_PARAMETER)
      else if retain_sha256 then
        .inr ({ ssl with session :=
          { ssl.session with peer_sha256 := cb.sha256 certificate } }, some pk)
      else
        .inr (ssl, some pk)
  else
    .inr (ssl, pkey)

/-- The certificate-list loop (lines 217–322).  `certs` is the buffer stack
accumulated so far and `pkey` the leaf public key; on success the final stack
and key are returned, on failure `none` (with the alert already recorded on
the connection). -/
def processCertList (cb : CertCallbacks) (ssl : SSLConn)
    (retain_sha256 : Bool) (certs : List (List Nat)) (pkey : Option Nat)
    (certificate_list : List Nat) :
    SSLConn × Option (List (List Nat) × Option Nat) :=
  if certificate_list.isEmpty then (ssl, some (certs, pkey))
  else
    match h1 : cbsGetPrefixed 3 certificate_list with
    | none =>
      (putError (sendAlert ssl SSL3_AL_FATAL SSL_AD_DECODE_ERROR)
        .cert_length_mismatch, none)
    | some (certificate, bs1) =>
      match h2 : cbsGetPrefixed 2 bs1 with
      | none =>
        (putError (sendAlert ssl SSL3_AL_FATAL SSL_AD_DECODE_ERROR)
          .cert_length_mismatch, none)
      | some (extensions, bs2) =>
        if certificate.length = 0 then
          (putError (sendAlert ssl SSL3_AL_FATAL SSL_AD_DECODE_ERROR)
            .cert_length_mismatch, none)
        else
          match processLeafChecks cb ssl retain_sha256 (certs.length == 0)
              pkey certificate with
          | .inl sslE => (sslE, none)
          | .inr (ssl1, pkey1) =>
            match processCertEntryExtensions cb ssl1
                ((certs ++ [certificate]).length == 1) extensions with
            | (ssl2, false) => (ssl2, none)
            | (ssl2, true) =>
              processCertList cb ssl2 retain_sha256 (certs ++ [certificate])
                pkey1 bs2
termination_by certificate_list.length
decreasing_by
  all_goals
    have key : ∀ (n : Nat) (xs c r : List Nat),
        cbsGetPrefixed n xs = some (c, r) →
        n + c.length + r.length = xs.length := by
      intro n xs c r h
      unfold cbsGetPrefixed at h
      split at h
      · rename_i hcond
        injection h with h
        injection h with hc hr
        subst hc
        subst hr
        simp only [List.length_take, List.length_drop]
        omega
      · cases h
    have hp1 := key 3 certificate_list certificate bs1 h1
    have hp2 := key 2 bs1 extensions bs2 h2
    omega

/-- Lines 324–333: store a null certificate list rather than an empty one,
commit the chain and the peer key into the session. -/
def commitCerts (ssl1 : SSLConn) (certs : List (List Nat)) (pkey : Option Nat) :
    SSLConn :=
  { ssl1 with
    peer_pubkey := pkey,
    session := { ssl1.session with
      certs := if certs.length = 0 then none else some certs } }

/-- `tls13_process_certificate` (lines 194–358). -/
def tls13_process_certificate (cb : CertCallbacks) (ssl : SSLConn)
    (allow_anonymous : Bool) : SSLConn × Bool :=
  match cbsGetPrefixed 1 ssl.init_msg with
  | none =>
    (putError (sendAlert ssl SSL3_AL_FATAL SSL_AD_DECODE_ERROR) .decode_error,
      false)
  | some (context, rest) =>
    if context.length ≠ 0 then
      (putError (sendAlert ssl SSL3_AL_FATAL SSL_AD_DECODE_ERROR) .decode_error,
        false)
    else
      match cbsGetPrefixed 3 rest with
      | none =>
        (putError (sendAlert ssl SSL3_AL_FATAL SSL_AD_DECODE_ERROR) .decode_error,
          false)
      | some (certificate_list, rest2) =>
        if rest2.length ≠ 0 then
          (putError (sendAlert ssl SSL3_AL_FATAL SSL_AD_DECODE_ERROR)
            .decode_error, false)
        else
          match processCertList cb ssl
              (ssl.server && ssl.retain_only_sha256_of_client_certs)
              [] none certificate_list with
          | (ssl1, none) => (ssl1, false)
          | (ssl1, some (certs, pkey)) =>
            if cb.cache_objects (commitCerts ssl1 certs pkey).session = false then
              (sendAlert (putError (commitCerts ssl1 certs pkey) .decode_error)
                SSL3_AL_FATAL SSL_AD_DECODE_ERROR, false)
            else if
                (((commitCerts ssl1 certs pkey).session.certs).getD []).length
                  = 0 then
              if allow_anonymous = false then
                (sendAlert (putError (commitCerts ssl1 certs pkey)
                  .peer_did_not_return_a_certificate)
                  SSL3_AL_FATAL SSL_AD_CERTIFICATE_REQUIRED, false)
              else
                ({ commitCerts ssl1 certs pkey with session :=
                  { (commitCerts ssl1 certs pkey).session with
                    verify_result := X509_V_OK } }, true)
            else
              ({ commitCerts ssl1 certs pkey with session :=
                { (commitCerts ssl1 certs pkey).session with
                  peer_sha256_valid :=
                    ssl.server && ssl.retain_only_sha256_of_client_certs } },
                true)

/-- Two connections agree on everything the certificate-extension handling
observes and reports: role, the two enable flags, and the alert and error
queues.  The session contents are deliberately not included. -/
def ObsEq (s s' : SSLConn) : Prop :=
  s.server = s'.server ∧
  s.ocsp_stapling_enabled = s'.ocsp_stapling_enabled ∧
  s.signed_cert_timestamps_enabled = s'.signed_cert_timestamps_enabled ∧
  s.alerts = s'.alerts ∧
  s.errors = s'.errors

/-- Alert discipline of one handler invocation: a successful run queues no
alert, and any run queues at most one. -/
def AlertOk (before after : List (Nat × Nat)) (ok : Bool) : Prop :=
  (ok = true → after = before) ∧
  (after = before ∨ ∃ a, after = before ++ [a])

/-! ## The Certificate outer grammar (as the specification states it) -/

/-- The entry-list grammar from the spec: each entry is a 24-bit-length-
prefixed non-empty certificate body followed by a 16-bit-length-prefixed
extension block. -/
def certEntriesGrammar (bs : List Nat) : Option (List (List Nat × List Nat)) :=
  if bs.isEmpty then some []
  else
    match h1 : cbsGetPrefixed 3 bs with
    | none => none
    | some (cert, r1) =>
      match h2 : cbsGetPrefixed 2 r1 with
      | none => none
      | some (ext, r2) =>
        if cert.length = 0 then none
        else (certEntriesGrammar r2).map (fun es => (cert, ext) :: es)
termination_by bs.length
decreasing_by
  all_goals
    have key : ∀ (n : Nat) (xs c r : List Nat),
        cbsGetPrefixed n xs = some (c, r) →
        n + c.length + r.length = xs.length := by
      intro n xs c r h
      unfold cbsGetPrefixed at h
      split at h
      · rename_i hcond
        injection h with h
        injection h with hc hr
        subst hc
        subst hr
        simp only [List.length_take, List.length_drop]
        omega
      · cases h
    have hp1 := key 3 bs cert r1 h1
    have hp2 := key 2 r1 ext r2 h2
    omega

/-- The outer Certificate-message grammar from the spec: an empty
1-byte-length-prefixed context, then a 24-bit-length-prefixed entry list
with no trailing bytes. -/
def certMsgGrammar (msg : List Nat) : Option (List (List Nat × List Nat)) :=
  match cbsGetPrefixed 1 msg with
  | none => none
  | some (context, rest) =>
    if context.length ≠ 0 then none
    else
      match cbsGetPrefixed 3 rest with
      | none => none
      | some (lst, rest2) =>
        if rest2.length ≠ 0 then none else certEntriesGrammar lst

/-! ## Certificate message encoding -/

/-- `tls13_add_certificate` (lines 443–513).  `ssl_has_certificate` is
modelled from the spec ("if the local chain is absent, emit an empty list and
return immediately"): the chain is present when it holds a leaf buffer. -/
def tls13_add_certificate (ssl : SSLConn) : SSLConn × Bool :=
  match ssl.cert_chain with
  | none => (addMessage ssl SSL3_MT_CERTIFICATE ([0] ++ cbbAddPrefixed 3 []), true)
  | some [] => (addMessage ssl SSL3_MT_CERTIFICATE ([0] ++ cbbAddPrefixed 3 []), true)
  | some (leaf_buf :: chain_rest) =>
    let sctExt : List Nat :=
      match ssl.cert_sct with
      | some sctList =>
        if ssl.scts_requested then
          beBytes 2 TLSEXT_TYPE_certificate_timestamp ++ cbbAddPrefixed 2 sctList
        else []
      | none => []
    let ocspExt : List Nat :=
      match ssl.cert_ocsp with
      | some ocsp =>
        if ssl.ocsp_stapling_requested then
          beBytes 2 TLSEXT_TYPE_status_request ++
            cbbAddPrefixed 2 ([TLSEXT_STATUSTYPE_ocsp] ++ cbbAddPrefixed 3 ocsp)
        else []
      | none => []
    let listBytes :=
      cbbAddPrefixed 3 leaf_buf ++ cbbAddPrefixed 2 (sctExt ++ ocspExt) ++
        (chain_rest.flatMap fun c => cbbAddPrefixed 3 c ++ beBytes 2 0)
    (addMessage ssl SSL3_MT_CERTIFICATE ([0] ++ cbbAddPrefixed 3 listBytes), true)

/-! ## Theorems -/

/-! ### Basic lemmas about the byte primitives -/

theorem beBytes_length (n v : Nat) : (beBytes n v).length = n := by
  induction n generalizing v with
  | zero => rfl
  | succ k ih => simp [beBytes, ih]

theorem beBytes_lt_256 (n v : Nat) : ∀ b ∈ beBytes n v, b < 256 := by
  induction n generalizing v with
  | zero => intro b hb; simp [beBytes] at hb
  | succ k ih =>
    intro b hb
    simp only [beBytes, List.mem_append, List.mem_singleton] at hb
    rcases hb with hb | hb
    · exact ih _ b hb
    · subst hb; exact Nat.mod_lt _ (by norm_num)

theorem beVal_append_singleton (bs : List Nat) (b : Nat) :
    beVal (bs ++ [b]) = beVal bs * 256 + b := by
  simp [beVal, List.foldl_append]

theorem beVal_beBytes (n v : Nat) (h : v < 256 ^ n) :
    beVal (beBytes n v) = v := by
  induction n generalizing v with
  | zero =>
    interval_cases v
    rfl
  | succ k ih =>
    have hdiv : v / 256 < 256 ^ k := by
      rw [Nat.div_lt_iff_lt_mul (by norm_num)]
      calc v < 256 ^ (k + 1) := h
        _ = 256 ^ k * 256 := by ring
    rw [beBytes, beVal_append_singleton, ih _ hdiv]
    exact (Nat.div_add_mod v 256).symm ▸ by omega

theorem cbsGetPrefixed_some (n : Nat) (bs c r : List Nat)
    (h : cbsGetPrefixed n bs = some (c, r)) :
    n + c.length + r.length = bs.length ∧
    c.length = beVal (bs.take n) ∧
    c ++ r = bs.drop n := by
  unfold cbsGetPrefixed at h
  split at h
  · rename_i hcond
    obtain ⟨hn, hL⟩ := hcond
    simp only [List.length_drop] at hL
    injection h with h'
    injection h' with hc hr
    subst hc; subst hr
    refine ⟨?_, ?_, List.take_append_drop _ _⟩
    · simp only [List.length_take, List.length_drop]
      omega
    · simp only [List.length_take, List.length_drop]
      omega
  · exact absurd h (by simp)

/-- Reading an `n`-byte-length-prefixed field written by `cbbAddPrefixed`
recovers the contents exactly, provided the length fits in `n` bytes. -/
theorem cbsGetPrefixed_cbbAddPrefixed (n : Nat) (c rest : List Nat)
    (h : c.length < 256 ^ n) :
    cbsGetPrefixed n (cbbAddPrefixed n c ++ rest) = some (c, rest) := by
  unfold cbsGetPrefixed cbbAddPrefixed
  have hlen : (beBytes n c.length).length = n := beBytes_length n c.length
  rw [List.append_assoc]
  have htake : (beBytes n c.length ++ (c ++ rest)).take n = beBytes n c.length :=
    List.take_left' hlen
  have hdrop : (beBytes n c.length ++ (c ++ rest)).drop n = c ++ rest :=
    List.drop_left' hlen
  rw [htake, hdrop, beVal_beBytes n c.length h,
      if_pos ⟨by simp [hlen], by simp⟩, List.take_left, List.drop_left]

theorem foldl_beVal (bs : List Nat) :
    ∀ acc, bs.foldl (fun a b => a * 256 + b) acc =
      acc * 256 ^ bs.length + beVal bs := by
  induction bs with
  | nil => intro acc; simp [beVal]
  | cons b t ih =>
    intro acc
    have h1 : (b :: t).foldl (fun a b => a * 256 + b) acc =
        t.foldl (fun a b => a * 256 + b) (acc * 256 + b) := rfl
    have h2 : beVal (b :: t) = t.foldl (fun a b => a * 256 + b) b := by
      simp [beVal]
    rw [h1, ih, h2, ih b]
    ring_nf
    simp [pow_succ]
    ring

theorem beVal_lt (bs : List Nat) (h : ∀ b ∈ bs, b < 256) :
    beVal bs < 256 ^ bs.length := by
  induction bs with
  | nil => simp [beVal]
  | cons b t ih =>
    have hb : b < 256 := h b (by simp)
    have ht : beVal t < 256 ^ t.length := ih (fun x hx => h x (by simp [hx]))
    have h2 : beVal (b :: t) = b * 256 ^ t.length + beVal t := by
      have : beVal (b :: t) = t.foldl (fun a b => a * 256 + b) b := by
        simp [beVal]
      rw [this, foldl_beVal]
    rw [h2]
    have : b * 256 ^ t.length + beVal t < (b + 1) * 256 ^ t.length := by
      nlinarith [ht]
    calc b * 256 ^ t.length + beVal t < (b + 1) * 256 ^ t.length := this
      _ ≤ 256 * 256 ^ t.length := by
          have : b + 1 ≤ 256 := hb
          exact Nat.mul_le_mul_right _ this
      _ = 256 ^ (t.length + 1) := by ring
      _ = 256 ^ (b :: t).length := by simp

theorem cbsGetPrefixed_mem (n : Nat) (bs c r : List Nat)
    (h : cbsGetPrefixed n bs = some (c, r)) :
    (∀ b ∈ c, b ∈ bs) ∧ (∀ b ∈ r, b ∈ bs) := by
  obtain ⟨_, _, hcr⟩ := cbsGetPrefixed_some n bs c r h
  constructor <;> intro b hb
  · exact List.mem_of_mem_drop (hcr ▸ List.mem_append.mpr (Or.inl hb))
  · exact List.mem_of_mem_drop (hcr ▸ List.mem_append.mpr (Or.inr hb))

theorem cbsGetPrefixed_len_lt (n : Nat) (bs c r : List Nat)
    (h : cbsGetPrefixed n bs = some (c, r)) (hb : ∀ b ∈ bs, b < 256) :
    c.length < 256 ^ n := by
  obtain ⟨hlen, hcl, _⟩ := cbsGetPrefixed_some n bs c r h
  have hlt : beVal (bs.take n) < 256 ^ (bs.take n).length :=
    beVal_lt _ (fun b hbm => hb b (List.mem_of_mem_take hbm))
  have hle : (bs.take n).length ≤ n := by
    simp [List.length_take]
  calc c.length = beVal (bs.take n) := hcl
    _ < 256 ^ (bs.take n).length := hlt
    _ ≤ 256 ^ n := Nat.pow_le_pow_right (by norm_num) hle

theorem cbsGetU16_some (bs : List Nat) (v : Nat) (rest : List Nat)
    (h : cbsGetU16 bs = some (v, rest)) : rest.length + 2 = bs.length := by
  match bs with
  | [] => exact absurd h (by simp [cbsGetU16])
  | [b0] => exact absurd h (by simp [cbsGetU16])
  | b0 :: b1 :: tl =>
    simp only [cbsGetU16] at h
    injection h with h'
    injection h' with hv hr
    subst hr
    simp

/-- **C2.** `tls13_receive_key_update` succeeds exactly on the two one-byte
payloads `[0]` (not requested) and `[1]` (requested).  Any other payload —
empty, trailing bytes, or an undefined code — fails with a single fatal
decode-error alert and rotates no traffic key.  On success the read key is
rotated immediately; if the code is `requested` and no acknowledgement is
pending, a not-requested KeyUpdate is queued, the write key is rotated and
the pending flag is set; if an acknowledgement is already pending, no message
is queued and the write key is not rotated. -/
theorem receive_key_update_spec (ssl : SSLConn) :
    ((tls13_receive_key_update ssl).2 = true ↔
      (ssl.init_msg = [SSL_KEY_UPDATE_NOT_REQUESTED] ∨
       ssl.init_msg = [SSL_KEY_UPDATE_REQUESTED])) ∧
    ((tls13_receive_key_update ssl).2 = false →
      (tls13_receive_key_update ssl).1.alerts =
        ssl.alerts ++ [(SSL3_AL_FATAL, SSL_AD_DECODE_ERROR)] ∧
      (tls13_receive_key_update ssl).1.errors = ssl.errors ++ [Reason.decode_error] ∧
      (tls13_receive_key_update ssl).1.read_epoch = ssl.read_epoch ∧
      (tls13_receive_key_update ssl).1.write_epoch = ssl.write_epoch ∧
      (tls13_receive_key_update ssl).1.sent = ssl.sent ∧
      (tls13_receive_key_update ssl).1.key_update_pending = ssl.key_update_pending) ∧
    ((tls13_receive_key_update ssl).2 = true →
      (tls13_receive_key_update ssl).1.read_epoch = ssl.read_epoch + 1) ∧
    (ssl.init_msg = [SSL_KEY_UPDATE_REQUESTED] → ssl.key_update_pending = false →
      (tls13_receive_key_update ssl).1.sent =
        ssl.sent ++ [(SSL3_MT_KEY_UPDATE, [SSL_KEY_UPDATE_NOT_REQUESTED])] ∧
      (tls13_receive_key_update ssl).1.write_epoch = ssl.write_epoch + 1 ∧
      (tls13_receive_key_update ssl).1.key_update_pending = true) ∧
    (ssl.init_msg = [SSL_KEY_UPDATE_NOT_REQUESTED] ∨
        (ssl.init_msg = [SSL_KEY_UPDATE_REQUESTED] ∧ ssl.key_update_pending = true) →
      (tls13_receive_key_update ssl).1.sent = ssl.sent ∧
      (tls13_receive_key_update ssl).1.write_epoch = ssl.write_epoch ∧
      (tls13_receive_key_update ssl).1.key_update_pending = ssl.key_update_pending) := by
  rcases hmsg : ssl.init_msg with _ | ⟨b, rest⟩
  · simp [tls13_receive_key_update, hmsg, cbsGetU8, sendAlert, putError]
  · rcases rest with _ | ⟨b2, rest2⟩
    · by_cases hb0 : b = SSL_KEY_UPDATE_NOT_REQUESTED
      · subst hb0
        simp [tls13_receive_key_update, hmsg, cbsGetU8, tls13_rotate_traffic_key,
          SSL_KEY_UPDATE_NOT_REQUESTED, SSL_KEY_UPDATE_REQUESTED]
      · by_cases hb1 : b = SSL_KEY_UPDATE_REQUESTED
        · subst hb1
          by_cases hp : ssl.key_update_pending
          · simp [tls13_receive_key_update, hmsg, cbsGetU8, tls13_rotate_traffic_key,
              hp, SSL_KEY_UPDATE_NOT_REQUESTED, SSL_KEY_UPDATE_REQUESTED]
          · simp [tls13_receive_key_update, hmsg, cbsGetU8, tls13_rotate_traffic_key,
              addMessage, hp, SSL_KEY_UPDATE_NOT_REQUESTED, SSL_KEY_UPDATE_REQUESTED]
        · simp [tls13_receive_key_update, hmsg, cbsGetU8, sendAlert, putError,
            hb0, hb1, SSL_KEY_UPDATE_NOT_REQUESTED, SSL_KEY_UPDATE_REQUESTED] at *
          simp [hb0, hb1]
    · simp [tls13_receive_key_update, hmsg, cbsGetU8, sendAlert, putError]

/-- **C2 witness**: the spec theorem applied to a concrete connection
receiving a `requested` KeyUpdate with no acknowledgement pending. -/
theorem receive_key_update_spec_witness :
    (tls13_receive_key_update { init_msg := [1] }).2 = true ∧
    (tls13_receive_key_update { init_msg := [1] }).1.read_epoch = 0 + 1 ∧
    (tls13_receive_key_update { init_msg := [1] }).1.write_epoch = 0 + 1 ∧
    (tls13_receive_key_update { init_msg := [1] }).1.sent = [(24, [0])] := by
  have h := receive_key_update_spec { init_msg := [1] }
  refine ⟨h.1.mpr (Or.inr rfl), h.2.2.1 (h.1.mpr (Or.inr rfl)), ?_, ?_⟩
  · exact (h.2.2.2.1 rfl rfl).2.1
  · exact (h.2.2.2.1 rfl rfl).1

/-- Helper: `tls13_receive_key_update` never touches the key-update counter. -/
theorem receive_key_update_count_eq (s : SSLConn) :
    (tls13_receive_key_update s).1.key_update_count = s.key_update_count := by
  rcases h : cbsGetU8 s.init_msg with _ | ⟨b, rest⟩
  · simp [tls13_receive_key_update, h, sendAlert, putError]
  · simp only [tls13_receive_key_update, h]
    split
    · simp [sendAlert, putError]
    · split
      · simp [tls13_rotate_traffic_key, addMessage]
      · simp [tls13_rotate_traffic_key]

/-- **C1.** Post-handshake dispatch: a KeyUpdate message increments the
key-update counter; any non-KeyUpdate message resets it to zero (the external
ticket handler is assumed not to touch the counter); and if the incremented
counter exceeds the ceiling `kMaxKeyUpdates = 32` the dispatch fails fatally
with a too-many-key-updates unexpected-message alert before rotating any
traffic key.  In particular, at counter 32 one more KeyUpdate fails without
mutating either traffic key. -/
theorem post_handshake_counter_spec (th : SSLConn → SSLConn × Bool) (ssl : SSLConn)
    (hth : ∀ s, ((th s).1).key_update_count = s.key_update_count) :
    (ssl.message_type = SSL3_MT_KEY_UPDATE →
      (tls13_post_handshake th ssl).1.key_update_count = ssl.key_update_count + 1) ∧
    (ssl.message_type ≠ SSL3_MT_KEY_UPDATE →
      (tls13_post_handshake th ssl).1.key_update_count = 0) ∧
    (ssl.message_type = SSL3_MT_KEY_UPDATE → ssl.key_update_count + 1 > kMaxKeyUpdates →
      (tls13_post_handshake th ssl).2 = false ∧
      (tls13_post_handshake th ssl).1.alerts =
        ssl.alerts ++ [(SSL3_AL_FATAL, SSL_AD_UNEXPECTED_MESSAGE)] ∧
      (tls13_post_handshake th ssl).1.errors =
        ssl.errors ++ [Reason.too_many_key_updates] ∧
      (tls13_post_handshake th ssl).1.read_epoch = ssl.read_epoch ∧
      (tls13_post_handshake th ssl).1.write_epoch = ssl.write_epoch) ∧
    (ssl.message_type = SSL3_MT_KEY_UPDATE → ssl.key_update_count = 32 →
      (tls13_post_handshake th ssl).2 = false ∧
      (tls13_post_handshake th ssl).1.read_epoch = ssl.read_epoch ∧
      (tls13_post_handshake th ssl).1.write_epoch = ssl.write_epoch) := by
  unfold tls13_post_handshake
  by_cases hku : ssl.message_type = SSL3_MT_KEY_UPDATE
  · rw [if_pos hku]
    dsimp only
    by_cases hover : ssl.key_update_count + 1 > kMaxKeyUpdates
    · rw [if_pos hover]
      refine ⟨fun _ => by simp [sendAlert, putError], fun hne => absurd hku hne,
        fun _ _ => by simp [sendAlert, putError], fun _ _ => by simp [sendAlert, putError]⟩
    · rw [if_neg hover]
      refine ⟨fun _ => ?_, fun hne => absurd hku hne,
        fun _ hover2 => absurd hover2 hover,
        fun _ h32 => absurd (by rw [h32]; decide) hover⟩
      rw [receive_key_update_count_eq]
  · rw [if_neg hku]
    dsimp only
    refine ⟨fun h => absurd h hku, fun _ => ?_, fun h => absurd h hku,
      fun h => absurd h hku⟩
    split
    · rw [hth]
    · simp [sendAlert, putError]

/-- **C1 witness**: at counter 32, one more KeyUpdate fails without rotating
either traffic key; a non-KeyUpdate message resets the counter. -/
theorem post_handshake_counter_spec_witness :
    (tls13_post_handshake (fun s => (s, true))
        { message_type := 24, key_update_count := 32, init_msg := [0] }).2 = false ∧
    (tls13_post_handshake (fun s => (s, true))
        { message_type := 24, key_update_count := 32, init_msg := [0] }).1.read_epoch = 0 ∧
    (tls13_post_handshake (fun s => (s, true))
        { message_type := 4, key_update_count := 7 }).1.key_update_count = 0 := by
  have h1 := post_handshake_counter_spec (fun s => (s, true))
    { message_type := 24, key_update_count := 32, init_msg := [0] } (fun s => rfl)
  have h2 := post_handshake_counter_spec (fun s => (s, true))
    { message_type := 4, key_update_count := 7 } (fun s => rfl)
  exact ⟨(h1.2.2.2 rfl rfl).1, (h1.2.2.2 rfl rfl).2.1, h2.2.1 (by decide)⟩

/-- Facts about `handleStatusRequest`: it never touches the chain or SCT
fields; success leaves alerts alone, failure appends exactly one; with the
leaf flag clear the whole session is untouched; and the success flag, alerts
and errors do not depend on the leaf flag. -/
theorem handleStatusRequest_facts (ssl : SSLConn) (l : Bool) (o : Option (List Nat)) :
    ((handleStatusRequest ssl l o).1.session.certs = ssl.session.certs) ∧
    ((handleStatusRequest ssl l o).1.session.sct_list = ssl.session.sct_list) ∧
    ((handleStatusRequest ssl l o).2 = true →
      (handleStatusRequest ssl l o).1.alerts = ssl.alerts) ∧
    ((handleStatusRequest ssl l o).2 = false →
      ∃ a, (handleStatusRequest ssl l o).1.alerts = ssl.alerts ++ [a]) ∧
    (l = false → (handleStatusRequest ssl l o).1.session = ssl.session) := by
  rcases o with _ | sr
  · simp [handleStatusRequest]
  · unfold handleStatusRequest
    repeat' split
    all_goals simp_all [sendAlert, putError]

theorem handleStatusRequest_leaf_indep (ssl : SSLConn) (o : Option (List Nat)) :
    ((handleStatusRequest ssl false o).2 = (handleStatusRequest ssl true o).2) ∧
    ((handleStatusRequest ssl false o).1.alerts =
      (handleStatusRequest ssl true o).1.alerts) ∧
    ((handleStatusRequest ssl false o).1.errors =
      (handleStatusRequest ssl true o).1.errors) := by
  rcases o with _ | sr
  · simp [handleStatusRequest]
  · unfold handleStatusRequest
    repeat' split
    all_goals simp [sendAlert, putError]

/-- The same facts for `handleSct`. -/
theorem handleSct_facts (cb : CertCallbacks) (ssl : SSLConn) (l : Bool)
    (o : Option (List Nat)) :
    ((handleSct cb ssl l o).1.session.certs = ssl.session.certs) ∧
    ((handleSct cb ssl l o).1.session.ocsp_response = ssl.session.ocsp_response) ∧
    ((handleSct cb ssl l o).2 = true → (handleSct cb ssl l o).1.alerts = ssl.alerts) ∧
    ((handleSct cb ssl l o).2 = false →
      ∃ a, (handleSct cb ssl l o).1.alerts = ssl.alerts ++ [a]) ∧
    (l = false → (handleSct cb ssl l o).1.session = ssl.session) := by
  rcases o with _ | sct
  · simp [handleSct]
  · unfold handleSct
    repeat' split
    all_goals simp_all [sendAlert, putError]

theorem handleSct_leaf_indep (cb : CertCallbacks) (ssl : SSLConn)
    (o : Option (List Nat)) :
    ((handleSct cb ssl false o).2 = (handleSct cb ssl true o).2) ∧
    ((handleSct cb ssl false o).1.alerts = (handleSct cb ssl true o).1.alerts) ∧
    ((handleSct cb ssl false o).1.errors = (handleSct cb ssl true o).1.errors) := by
  rcases o with _ | sct
  · simp [handleSct]
  · unfold handleSct
    repeat' split
    all_goals simp [sendAlert, putError]

/-- The status-request handling behaves the same on observationally equal
connections regardless of the leaf flag: same outcome, and the results stay
observationally equal. -/
theorem handleStatusRequest_obs (s s' : SSLConn) (l l' : Bool)
    (o : Option (List Nat)) (h : ObsEq s s') :
    (handleStatusRequest s l o).2 = (handleStatusRequest s' l' o).2 ∧
    ObsEq (handleStatusRequest s l o).1 (handleStatusRequest s' l' o).1 := by
  obtain ⟨hsrv, hocsp, hsct, hal, her⟩ := h
  rcases o with _ | sr
  · exact ⟨rfl, hsrv, hocsp, hsct, hal, her⟩
  · simp only [handleStatusRequest]
    by_cases hc : s'.server = true ∨ s'.ocsp_stapling_enabled = false
    · rw [if_pos (by rw [hsrv, hocsp]; exact hc), if_pos hc]
      exact ⟨by simp, hsrv, hocsp, hsct, by simp [sendAlert, putError, hal],
        by simp [sendAlert, putError, her]⟩
    · rw [if_neg (by rw [hsrv, hocsp]; exact hc), if_neg hc]
      rcases h8 : cbsGetU8 sr with _ | ⟨t, r⟩
      · simp only [h8]
        exact ⟨by simp, hsrv, hocsp, hsct, by simp [sendAlert, hal], her⟩
      · simp only [h8]
        by_cases ht : t ≠ TLSEXT_STATUSTYPE_ocsp
        · rw [if_pos ht, if_pos ht]
          exact ⟨by simp, hsrv, hocsp, hsct, by simp [sendAlert, hal], her⟩
        · rw [if_neg ht, if_neg ht]
          rcases h3 : cbsGetPrefixed 3 r with _ | ⟨oc, r2⟩
          · simp only [h3]
            exact ⟨by simp, hsrv, hocsp, hsct, by simp [sendAlert, hal], her⟩
          · simp only [h3]
            by_cases hoc : oc.length = 0 ∨ r2.length ≠ 0
            · rw [if_pos hoc, if_pos hoc]
              exact ⟨by simp, hsrv, hocsp, hsct, by simp [sendAlert, hal], her⟩
            · rw [if_neg hoc, if_neg hoc]
              cases l <;> cases l' <;>
                exact ⟨by simp, hsrv, hocsp, hsct, by simp [hal], by simp [her]⟩

/-- The SCT handling behaves the same on observationally equal connections
regardless of the leaf flag. -/
theorem handleSct_obs (cb : CertCallbacks) (s s' : SSLConn) (l l' : Bool)
    (o : Option (List Nat)) (h : ObsEq s s') :
    (handleSct cb s l o).2 = (handleSct cb s' l' o).2 ∧
    ObsEq (handleSct cb s l o).1 (handleSct cb s' l' o).1 := by
  obtain ⟨hsrv, hocsp, hsct, hal, her⟩ := h
  rcases o with _ | sct
  · exact ⟨rfl, hsrv, hocsp, hsct, hal, her⟩
  · simp only [handleSct]
    by_cases hc : s'.server = true ∨ s'.signed_cert_timestamps_enabled = false
    · rw [if_pos (by rw [hsrv, hsct]; exact hc), if_pos hc]
      exact ⟨by simp, hsrv, hocsp, hsct, by simp [sendAlert, putError, hal],
        by simp [sendAlert, putError, her]⟩
    · rw [if_neg (by rw [hsrv, hsct]; exact hc), if_neg hc]
      by_cases hv : cb.sct_valid sct = false
      · rw [if_pos hv, if_pos hv]
        exact ⟨by simp, hsrv, hocsp, hsct, by simp [sendAlert, putError, hal],
          by simp [sendAlert, putError, her]⟩
      · rw [if_neg hv, if_neg hv]
        cases l <;> cases l' <;>
          exact ⟨by simp, hsrv, hocsp, hsct, by simp [hal], by simp [her]⟩

/-- An entry's extension block is parsed and validated identically on
observationally equal connections whatever the leaf flags. -/
theorem processCertEntryExtensions_obs (cb : CertCallbacks) (s s' : SSLConn)
    (l l' : Bool) (ext : List Nat) (h : ObsEq s s') :
    (processCertEntryExtensions cb s l ext).2 =
      (processCertEntryExtensions cb s' l' ext).2 ∧
    ObsEq (processCertEntryExtensions cb s l ext).1
      (processCertEntryExtensions cb s' l' ext).1 := by
  unfold processCertEntryExtensions
  rcases hpe : ssl_parse_extensions ext none none with a | ⟨sro, sco⟩
  · simp only [hpe]
    obtain ⟨hsrv, hocsp, hsct, hal, her⟩ := h
    exact ⟨by simp, hsrv, hocsp, hsct, by simp [sendAlert, hal], her⟩
  · simp only [hpe]
    have hs := handleStatusRequest_obs s s' l l' sro h
    rcases hr : handleStatusRequest s l sro with ⟨s1, b⟩
    rcases hr2 : handleStatusRequest s' l' sro with ⟨s1', b'⟩
    rw [hr, hr2] at hs
    cases b <;> cases b'
    · simp only [hr, hr2]
      exact ⟨by simp, hs.2⟩
    · exact absurd hs.1 (by simp)
    · exact absurd hs.1 (by simp)
    · simp only [hr, hr2]
      exact handleSct_obs cb s1 s1' l l' sco hs.2

/-- Leaf-check failure: the session is untouched and exactly one alert was
recorded. -/
theorem processLeafChecks_inl (cb : CertCallbacks) (ssl : SSLConn)
    (retain first : Bool) (pkey : Option Nat) (cert : List Nat) (e : SSLConn)
    (h : processLeafChecks cb ssl retain first pkey cert = .inl e) :
    e.session = ssl.session ∧ ∃ a, e.alerts = ssl.alerts ++ [a] := by
  unfold processLeafChecks at h
  split at h
  · split at h
    · injection h with h
      subst h
      simp [sendAlert, putError]
    · split at h
      · injection h with h
        subst h
        simp [sendAlert]
      · split at h <;> exact absurd h (by simp)
  · exact absurd h (by simp)

/-- Leaf-check success: only the retained leaf hash may change; on the first
entry the public key was parsed and passed the key-usage check, otherwise
the state and key pass through unchanged. -/
theorem processLeafChecks_inr (cb : CertCallbacks) (ssl : SSLConn)
    (retain first : Bool) (pkey : Option Nat) (cert : List Nat)
    (s1 : SSLConn) (pk1 : Option Nat)
    (h : processLeafChecks cb ssl retain first pkey cert = .inr (s1, pk1)) :
    s1.session.certs = ssl.session.certs ∧
    s1.session.ocsp_response = ssl.session.ocsp_response ∧
    s1.session.sct_list = ssl.session.sct_list ∧
    s1.alerts = ssl.alerts ∧
    s1.errors = ssl.errors ∧
    (first = true → ∃ p, cb.parse_pubkey cert = some p ∧
      cb.check_key_usage cert = true ∧ pk1 = some p) ∧
    (first = false → s1 = ssl ∧ pk1 = pkey) := by
  unfold processLeafChecks at h
  split at h
  · rename_i hfirst
    split at h
    · exact absurd h (by simp)
    · rename_i pk hpk
      split at h
      · exact absurd h (by simp)
      · rename_i husage
        split at h <;>
        · injection h with h
          injection h with h hpk1
          subst h; subst hpk1
          simp_all
  · rename_i hfirst
    injection h with h
    injection h with h hpk1
    subst h; subst hpk1
    simp_all

/-- Extension-block processing failure: the chain field is untouched, exactly
one alert was recorded, and with the leaf flag clear the session is fully
untouched. -/
theorem processCertEntryExtensions_false (cb : CertCallbacks) (ssl : SSLConn)
    (l : Bool) (ext : List Nat) (s2 : SSLConn)
    (h : processCertEntryExtensions cb ssl l ext = (s2, false)) :
    s2.session.certs = ssl.session.certs ∧
    (∃ a, s2.alerts = ssl.alerts ++ [a]) ∧
    (l = false → s2.session = ssl.session) := by
  unfold processCertEntryExtensions at h
  split at h
  · injection h with h
    subst h
    simp [sendAlert]
  · rename_i res sro sco heq
    split at h
    · rename_i s1 hsr
      injection h with h
      subst h
      have hf := handleStatusRequest_facts ssl l sro
      rw [hsr] at hf
      refine ⟨hf.1, hf.2.2.2.1 rfl, fun hl => hf.2.2.2.2 hl⟩
    · rename_i s1 hsr
      have hf := handleStatusRequest_facts ssl l sro
      rw [hsr] at hf
      have hg := handleSct_facts cb s1 l sco
      rw [h] at hg
      refine ⟨hg.1.trans hf.1, ?_, fun hl => (hg.2.2.2.2 hl).trans (hf.2.2.2.2 hl)⟩
      obtain ⟨a, ha⟩ := hg.2.2.2.1 rfl
      exact ⟨a, by rw [ha, hf.2.2.1 rfl]⟩

/-- Extension-block processing success: no alert, the chain field untouched,
and with the leaf flag clear the session is fully untouched. -/
theorem processCertEntryExtensions_true (cb : CertCallbacks) (ssl : SSLConn)
    (l : Bool) (ext : List Nat) (s2 : SSLConn)
    (h : processCertEntryExtensions cb ssl l ext = (s2, true)) :
    s2.session.certs = ssl.session.certs ∧
    s2.alerts = ssl.alerts ∧
    (l = false → s2.session = ssl.session) := by
  unfold processCertEntryExtensions at h
  split at h
  · exact absurd h (by simp)
  · rename_i res sro sco heq
    split at h
    · exact absurd h (by simp)
    · rename_i s1 hsr
      have hf := handleStatusRequest_facts ssl l sro
      rw [hsr] at hf
      have hg := handleSct_facts cb s1 l sco
      rw [h] at hg
      refine ⟨hg.1.trans hf.1, ?_, fun hl => (hg.2.2.2.2 hl).trans (hf.2.2.2.2 hl)⟩
      rw [hg.2.2.1 rfl, hf.2.2.1 rfl]

/-- Unfolding equation for `certEntriesGrammar` on a parsable entry. -/
theorem certEntriesGrammar_cons (bs cert bs1 ext bs2 : List Nat)
    (hbe : bs.isEmpty = false) (h1 : cbsGetPrefixed 3 bs = some (cert, bs1))
    (h2 : cbsGetPrefixed 2 bs1 = some (ext, bs2)) (hc : cert.length ≠ 0) :
    certEntriesGrammar bs =
      (certEntriesGrammar bs2).map (fun es => (cert, ext) :: es) := by
  rw [certEntriesGrammar.eq_def]
  split
  · simp_all
  · split
    · simp_all
    · rename_i c' b1' heq1
      rw [h1] at heq1
      injection heq1 with heq1
      injection heq1 with hceq hbeq
      subst hceq; subst hbeq
      split
      · simp_all
      · rename_i e' b2' heq2
        rw [h2] at heq2
        injection heq2 with heq2
        injection heq2 with heeq hbeq2
        subst heeq; subst hbeq2
        rw [if_neg hc]

/-- Combined loop invariants for `processCertList`: the chain field of the
session is never written inside the loop; success records no alert; failure
records exactly one; with a non-empty accumulator (all remaining entries are
non-leaf) the OCSP and SCT session fields are untouched; and success implies
the list matches the entry grammar. -/
theorem processCertList_facts (cb : CertCallbacks) :
    ∀ (n : Nat) (bs : List Nat), bs.length ≤ n →
      ∀ (ssl : SSLConn) (retain : Bool) (certs : List (List Nat)) (pkey : Option Nat),
      ((processCertList cb ssl retain certs pkey bs).1.session.certs =
        ssl.session.certs) ∧
      (∀ res, (processCertList cb ssl retain certs pkey bs).2 = some res →
        (processCertList cb ssl retain certs pkey bs).1.alerts = ssl.alerts ∧
        (certEntriesGrammar bs).isSome) ∧
      ((processCertList cb ssl retain certs pkey bs).2 = none →
        ∃ a, (processCertList cb ssl retain certs pkey bs).1.alerts =
          ssl.alerts ++ [a]) ∧
      (certs ≠ [] →
        (processCertList cb ssl retain certs pkey bs).1.session.ocsp_response =
          ssl.session.ocsp_response ∧
        (processCertList cb ssl retain certs pkey bs).1.session.sct_list =
          ssl.session.sct_list) := by
  intro n
  induction n with
  | zero =>
    intro bs hbs ssl retain certs pkey
    have hnil : bs = [] := List.length_eq_zero.mp (Nat.le_zero.mp hbs)
    subst hnil
    unfold processCertList
    simp [certEntriesGrammar]
  | succ k ih =>
    intro bs hbs ssl retain certs pkey
    unfold processCertList
    split
    · rename_i hbe
      simp [certEntriesGrammar, hbe]
    · rename_i hbe
      split
      · simp [sendAlert, putError]
      · rename_i cert bs1 h1
        split
        · simp [sendAlert, putError]
        · rename_i ext bs2 h2
          split
          · simp [sendAlert, putError]
          · rename_i hclen
            split
            · rename_i e hleaf
              obtain ⟨hsess, a, ha⟩ := processLeafChecks_inl cb ssl retain
                (certs.length == 0) pkey cert e hleaf
              refine ⟨by rw [hsess], by simp, fun _ => ⟨a, ha⟩, fun _ => ?_⟩
              rw [hsess]
              exact ⟨rfl, rfl⟩
            · rename_i s1 pk1 hleaf
              have hlf := processLeafChecks_inr cb ssl retain
                (certs.length == 0) pkey cert s1 pk1 hleaf
              split
              · rename_i s2 hext
                have hef := processCertEntryExtensions_false cb s1
                  ((certs ++ [cert]).length == 1) ext s2 hext
                refine ⟨by rw [hef.1, hlf.1], by simp, fun _ => ?_, fun hne => ?_⟩
                · obtain ⟨a, ha⟩ := hef.2.1
                  exact ⟨a, by rw [ha, hlf.2.2.2.1]⟩
                · have hflag : ((certs ++ [cert]).length == 1) = false := by
                    rcases certs with _ | ⟨c0, cs⟩
                    · exact absurd rfl hne
                    · simp
                  have hfirst : (certs.length == 0) = false := by
                    rcases certs with _ | ⟨c0, cs⟩
                    · exact absurd rfl hne
                    · simp
                  have hs1 : s1 = ssl := (hlf.2.2.2.2.2.2 hfirst).1
                  have hsess2 : s2.session = s1.session := hef.2.2 hflag
                  rw [hsess2, hs1]
                  exact ⟨rfl, rfl⟩
              · rename_i s2 hext
                have het := processCertEntryExtensions_true cb s1
                  ((certs ++ [cert]).length == 1) ext s2 hext
                have hlen2 : bs2.length ≤ k := by
                  have hp1 := (cbsGetPrefixed_some 3 bs cert bs1 h1).1
                  have hp2 := (cbsGetPrefixed_some 2 bs1 ext bs2 h2).1
                  omega
                have IH := ih bs2 hlen2 s2 retain (certs ++ [cert]) pk1
                refine ⟨?_, ?_, ?_, ?_⟩
                · rw [IH.1, het.1, hlf.1]
                · intro res hres
                  have hIH := IH.2.1 res hres
                  refine ⟨by rw [hIH.1, het.2.1, hlf.2.2.2.1], ?_⟩
                  have hbef : bs.isEmpty = false := by
                    simpa using hbe
                  rw [certEntriesGrammar_cons bs cert bs1 ext bs2 hbef h1 h2 hclen]
                  simpa using hIH.2
                · intro hnone
                  obtain ⟨a, ha⟩ := IH.2.2.1 hnone
                  exact ⟨a, by rw [ha, het.2.1, hlf.2.2.2.1]⟩
                · intro hne
                  have hflag : ((certs ++ [cert]).length == 1) = false := by
                    rcases certs with _ | ⟨c0, cs⟩
                    · exact absurd rfl hne
                    · simp
                  have hfirst : (certs.length == 0) = false := by
                    rcases certs with _ | ⟨c0, cs⟩
                    · exact absurd rfl hne
                    · simp
                  have hs1 : s1 = ssl := (hlf.2.2.2.2.2.2 hfirst).1
                  have hsess2 : s2.session = s1.session := het.2.2 hflag
                  have hrec := IH.2.2.2 (by simp)
                  rw [hrec.1, hrec.2, hsess2, hs1]
                  exact ⟨rfl, rfl⟩

theorem commitCerts_session_certs (s : SSLConn) (c : List (List Nat))
    (p : Option Nat) :
    (commitCerts s c p).session.certs =
      (if c.length = 0 then none else some c) := rfl

theorem commitCerts_peer_pubkey (s : SSLConn) (c : List (List Nat))
    (p : Option Nat) : (commitCerts s c p).peer_pubkey = p := rfl

/-- Reduction of `tls13_process_certificate` after a successful outer parse
and a successful loop run. -/
theorem process_certificate_reduce (cb : CertCallbacks) (ssl : SSLConn)
    (aa : Bool) (rest lst : List Nat) (sslL : SSLConn)
    (certs : List (List Nat)) (pkey : Option Nat)
    (hp1 : cbsGetPrefixed 1 ssl.init_msg = some ([], rest))
    (hp3 : cbsGetPrefixed 3 rest = some (lst, []))
    (hloop : processCertList cb ssl
      (ssl.server && ssl.retain_only_sha256_of_client_certs) [] none lst =
      (sslL, some (certs, pkey))) :
    tls13_process_certificate cb ssl aa =
      (if cb.cache_objects (commitCerts sslL certs pkey).session = false then
        (sendAlert (putError (commitCerts sslL certs pkey) .decode_error)
          SSL3_AL_FATAL SSL_AD_DECODE_ERROR, false)
      else if (((commitCerts sslL certs pkey).session.certs).getD []).length = 0
          then
        if aa = false then
          (sendAlert (putError (commitCerts sslL certs pkey)
            .peer_did_not_return_a_certificate)
            SSL3_AL_FATAL SSL_AD_CERTIFICATE_REQUIRED, false)
        else
          ({ commitCerts sslL certs pkey with session :=
            { (commitCerts sslL certs pkey).session with
              verify_result := X509_V_OK } }, true)
      else
        ({ commitCerts sslL certs pkey with session :=
          { (commitCerts sslL certs pkey).session with
            peer_sha256_valid :=
              ssl.server && ssl.retain_only_sha256_of_client_certs } },
          true)) := by
  unfold tls13_process_certificate
  simp only [hp1, hp3, hloop]
  rfl

/-- Inversion of a successful `tls13_process_certificate` run: the outer
parses succeeded with an empty context and no trailing bytes, the loop
succeeded, and the committed chain and peer key are the loop's results. -/
theorem process_certificate_ok_inv (cb : CertCallbacks) (ssl : SSLConn)
    (aa : Bool) (hok : (tls13_process_certificate cb ssl aa).2 = true) :
    ∃ rest lst sslL certs pkey,
      cbsGetPrefixed 1 ssl.init_msg = some ([], rest) ∧
      cbsGetPrefixed 3 rest = some (lst, []) ∧
      processCertList cb ssl (ssl.server && ssl.retain_only_sha256_of_client_certs)
        [] none lst = (sslL, some (certs, pkey)) ∧
      (tls13_process_certificate cb ssl aa).1.session.certs =
        (if certs.length = 0 then none else some certs) ∧
      (tls13_process_certificate cb ssl aa).1.peer_pubkey = pkey := by
  unfold tls13_process_certificate at hok
  split at hok
  · simp at hok
  · rename_i ctx rest hp1
    split at hok
    · simp at hok
    · rename_i hctx
      split at hok
      · simp at hok
      · rename_i lst rest2 hp3
        split at hok
        · simp at hok
        · rename_i htr
          split at hok
          · simp at hok
          · rename_i sslL certs pkey hloop
            have hctxnil : ctx = [] := List.length_eq_zero.mp (by omega)
            have hrest2 : rest2 = [] := List.length_eq_zero.mp (by omega)
            subst hctxnil
            subst hrest2
            refine ⟨rest, lst, sslL, certs, pkey, hp1, hp3, hloop, ?_⟩
            rw [process_certificate_reduce cb ssl aa rest lst sslL certs pkey
              hp1 hp3 hloop]
            split at hok
            · simp at hok
            · rename_i hcache
              rw [if_neg hcache]
              split at hok
              · rename_i hnum
                rw [if_pos hnum]
                split at hok
                · simp at hok
                · rename_i haa
                  rw [if_neg haa]
                  exact ⟨rfl, rfl⟩
              · rename_i hnum
                rw [if_neg hnum]
                exact ⟨rfl, rfl⟩

/-- Loop reduction: a truncated 24-bit certificate prefix on the first
remaining entry fails with the decode-error alert and the
cert-length-mismatch reason. -/
theorem processCertList_fail1 (cb : CertCallbacks) (ssl : SSLConn)
    (retain : Bool) (certs : List (List Nat)) (pkey : Option Nat)
    (lst : List Nat) (hne : lst.isEmpty = false)
    (h : cbsGetPrefixed 3 lst = none) :
    processCertList cb ssl retain certs pkey lst =
      (putError (sendAlert ssl SSL3_AL_FATAL SSL_AD_DECODE_ERROR)
        .cert_length_mismatch, none) := by
  unfold processCertList
  rw [if_neg (by simp [hne])]
  split
  · rfl
  · rename_i c b1 heq
    rw [h] at heq
    cases heq

/-- Loop reduction: a truncated 16-bit extension prefix on the first
remaining entry fails identically. -/
theorem processCertList_fail2 (cb : CertCallbacks) (ssl : SSLConn)
    (retain : Bool) (certs : List (List Nat)) (pkey : Option Nat)
    (lst cert bs1 : List Nat) (hne : lst.isEmpty = false)
    (h1 : cbsGetPrefixed 3 lst = some (cert, bs1))
    (h2 : cbsGetPrefixed 2 bs1 = none) :
    processCertList cb ssl retain certs pkey lst =
      (putError (sendAlert ssl SSL3_AL_FATAL SSL_AD_DECODE_ERROR)
        .cert_length_mismatch, none) := by
  unfold processCertList
  rw [if_neg (by simp [hne])]
  split
  · rename_i heq
    rw [h1] at heq
  · rename_i c b1 heq
    rw [h1] at heq
    injection heq with heq
    injection heq with hceq hbeq
    subst hceq; subst hbeq
    split
    · rfl
    · rename_i e b2 heq2
      rw [h2] at heq2
      cases heq2

/-- Loop reduction: an empty certificate body on the first remaining entry
fails identically. -/
theorem processCertList_fail_empty (cb : CertCallbacks) (ssl : SSLConn)
    (retain : Bool) (certs : List (List Nat)) (pkey : Option Nat)
    (lst cert bs1 ext bs2 : List Nat) (hne : lst.isEmpty = false)
    (h1 : cbsGetPrefixed 3 lst = some (cert, bs1))
    (h2 : cbsGetPrefixed 2 bs1 = some (ext, bs2))
    (hc : cert.length = 0) :
    processCertList cb ssl retain certs pkey lst =
      (putError (sendAlert ssl SSL3_AL_FATAL SSL_AD_DECODE_ERROR)
        .cert_length_mismatch, none) := by
  unfold processCertList
  rw [if_neg (by simp [hne])]
  split
  · rename_i heq
    rw [h1] at heq
  · rename_i c b1 heq
    rw [h1] at heq
    injection heq with heq
    injection heq with hceq hbeq
    subst hceq; subst hbeq
    split
    · rename_i heq2
      rw [h2] at heq2
    · rename_i e b2 heq2
      rw [h2] at heq2
      injection heq2 with heq2
      injection heq2 with heeq hbeq2
      subst heeq; subst hbeq2
      rw [if_pos hc]

/-- **C10.** A failure while parsing the certificate list never touches the
session's certificate-chain field: the loop itself never writes that field,
and when the loop fails the whole handler fails with the chain unchanged —
the decoded chain is committed only after the entire list has parsed. -/
theorem certs_commit_spec (cb : CertCallbacks) (ssl : SSLConn)
    (allow_anonymous : Bool) :
    (∀ retain certs pkey bs,
      (processCertList cb ssl retain certs pkey bs).1.session.certs =
        ssl.session.certs) ∧
    (∀ rest lst,
      cbsGetPrefixed 1 ssl.init_msg = some ([], rest) →
      cbsGetPrefixed 3 rest = some (lst, []) →
      (processCertList cb ssl
        (ssl.server && ssl.retain_only_sha256_of_client_certs)
        [] none lst).2 = none →
      (tls13_process_certificate cb ssl allow_anonymous).2 = false ∧
      (tls13_process_certificate cb ssl allow_anonymous).1.session.certs =
        ssl.session.certs) := by
  constructor
  · intro retain certs pkey bs
    exact (processCertList_facts cb bs.length bs le_rfl ssl retain certs pkey).1
  · intro rest lst h1 h3 hnone
    rcases hloop : processCertList cb ssl
        (ssl.server && ssl.retain_only_sha256_of_client_certs)
        [] none lst with ⟨ssl1, r⟩
    rw [hloop] at hnone
    simp only [Prod.snd] at hnone
    subst hnone
    have hcerts :=
      (processCertList_facts cb lst.length lst le_rfl ssl
        (ssl.server && ssl.retain_only_sha256_of_client_certs) [] none).1
    rw [hloop] at hcerts
    have hcerts' : ssl1.session.certs = ssl.session.certs := hcerts
    simp [tls13_process_certificate, h1, h3, hloop, hcerts']

/-- **C10 witness**: a message whose list contains one truncated entry fails
with the chain untouched. -/
theorem certs_commit_spec_witness :
    (tls13_process_certificate
      ⟨fun c => some c.length, fun _ => true, fun _ => true, fun _ => true,
        fun c => c⟩
      { init_msg := [0, 0, 0, 1, 255],
        session := { certs := some [[7]] } } true).2 = false ∧
    (tls13_process_certificate
      ⟨fun c => some c.length, fun _ => true, fun _ => true, fun _ => true,
        fun c => c⟩
      { init_msg := [0, 0, 0, 1, 255],
        session := { certs := some [[7]] } } true).1.session.certs =
      some [[7]] := by
  have h := (certs_commit_spec
    ⟨fun c => some c.length, fun _ => true, fun _ => true, fun _ => true,
      fun c => c⟩
    { init_msg := [0, 0, 0, 1, 255], session := { certs := some [[7]] } }
    true).2 [0, 0, 1, 255] [255] (by decide) (by decide)
    (by simp [processCertList, cbsGetPrefixed, beVal])
  exact h

/-- **C3.** `tls13_process_certificate` accepts the outer structure only
when the message is an empty 1-byte-length-prefixed context followed by a
24-bit-length-prefixed entry list with no trailing bytes, each entry a
24-bit-length-prefixed non-empty certificate body and a
16-bit-length-prefixed extension block (success implies the grammar
accepts).  A truncated or non-empty context, a truncated list prefix, or
trailing bytes yield one fatal decode-error alert with the decode-error
reason; a malformed first entry — truncated certificate prefix, truncated
extension prefix, or empty certificate body — yields one fatal decode-error
alert with the cert-length-mismatch reason. -/
theorem process_certificate_grammar_spec (cb : CertCallbacks) (ssl : SSLConn)
    (aa : Bool) :
    ((tls13_process_certificate cb ssl aa).2 = true →
      (certMsgGrammar ssl.init_msg).isSome) ∧
    (cbsGetPrefixed 1 ssl.init_msg = none →
      (tls13_process_certificate cb ssl aa).2 = false ∧
      (tls13_process_certificate cb ssl aa).1.alerts =
        ssl.alerts ++ [(SSL3_AL_FATAL, SSL_AD_DECODE_ERROR)] ∧
      (tls13_process_certificate cb ssl aa).1.errors =
        ssl.errors ++ [Reason.decode_error]) ∧
    (∀ ctx rest, cbsGetPrefixed 1 ssl.init_msg = some (ctx, rest) →
      ctx.length ≠ 0 →
      (tls13_process_certificate cb ssl aa).2 = false ∧
      (tls13_process_certificate cb ssl aa).1.alerts =
        ssl.alerts ++ [(SSL3_AL_FATAL, SSL_AD_DECODE_ERROR)] ∧
      (tls13_process_certificate cb ssl aa).1.errors =
        ssl.errors ++ [Reason.decode_error]) ∧
    (∀ rest, cbsGetPrefixed 1 ssl.init_msg = some ([], rest) →
      cbsGetPrefixed 3 rest = none →
      (tls13_process_certificate cb ssl aa).2 = false ∧
      (tls13_process_certificate cb ssl aa).1.alerts =
        ssl.alerts ++ [(SSL3_AL_FATAL, SSL_AD_DECODE_ERROR)] ∧
      (tls13_process_certificate cb ssl aa).1.errors =
        ssl.errors ++ [Reason.decode_error]) ∧
    (∀ rest lst rest2, cbsGetPrefixed 1 ssl.init_msg = some ([], rest) →
      cbsGetPrefixed 3 rest = some (lst, rest2) → rest2.length ≠ 0 →
      (tls13_process_certificate cb ssl aa).2 = false ∧
      (tls13_process_certificate cb ssl aa).1.alerts =
        ssl.alerts ++ [(SSL3_AL_FATAL, SSL_AD_DECODE_ERROR)] ∧
      (tls13_process_certificate cb ssl aa).1.errors =
        ssl.errors ++ [Reason.decode_error]) ∧
    (∀ rest lst, cbsGetPrefixed 1 ssl.init_msg = some ([], rest) →
      cbsGetPrefixed 3 rest = some (lst, []) → lst.isEmpty = false →
      cbsGetPrefixed 3 lst = none →
      (tls13_process_certificate cb ssl aa).2 = false ∧
      (tls13_process_certificate cb ssl aa).1.alerts =
        ssl.alerts ++ [(SSL3_AL_FATAL, SSL_AD_DECODE_ERROR)] ∧
      (tls13_process_certificate cb ssl aa).1.errors =
        ssl.errors ++ [Reason.cert_length_mismatch]) ∧
    (∀ rest lst cert bs1, cbsGetPrefixed 1 ssl.init_msg = some ([], rest) →
      cbsGetPrefixed 3 rest = some (lst, []) → lst.isEmpty = false →
      cbsGetPrefixed 3 lst = some (cert, bs1) → cbsGetPrefixed 2 bs1 = none →
      (tls13_process_certificate cb ssl aa).2 = false ∧
      (tls13_process_certificate cb ssl aa).1.alerts =
        ssl.alerts ++ [(SSL3_AL_FATAL, SSL_AD_DECODE_ERROR)] ∧
      (tls13_process_certificate cb ssl aa).1.errors =
        ssl.errors ++ [Reason.cert_length_mismatch]) ∧
    (∀ rest lst cert bs1 ext bs2,
      cbsGetPrefixed 1 ssl.init_msg = some ([], rest) →
      cbsGetPrefixed 3 rest = some (lst, []) → lst.isEmpty = false →
      cbsGetPrefixed 3 lst = some (cert, bs1) →
      cbsGetPrefixed 2 bs1 = some (ext, bs2) → cert.length = 0 →
      (tls13_process_certificate cb ssl aa).2 = false ∧
      (tls13_process_certificate cb ssl aa).1.alerts =
        ssl.alerts ++ [(SSL3_AL_FATAL, SSL_AD_DECODE_ERROR)] ∧
      (tls13_process_certificate cb ssl aa).1.errors =
        ssl.errors ++ [Reason.cert_length_mismatch]) := by
  refine ⟨?_, ?_, ?_, ?_, ?_, ?_, ?_, ?_⟩
  · intro hok
    obtain ⟨rest, lst, sslL, certs, pkey, hp1, hp3, hloop, _, _⟩ :=
      process_certificate_ok_inv cb ssl aa hok
    have hl2 : (processCertList cb ssl
        (ssl.server && ssl.retain_only_sha256_of_client_certs)
        [] none lst).2 = some (certs, pkey) := by rw [hloop]
    have hg := ((processCertList_facts cb lst.length lst le_rfl ssl
      (ssl.server && ssl.retain_only_sha256_of_client_certs) [] none).2.1
      (certs, pkey) hl2).2
    simp [certMsgGrammar, hp1, hp3, hg]
  · intro h
    simp [tls13_process_certificate, h, sendAlert, putError]
  · intro ctx rest h hctx
    simp [tls13_process_certificate, h, hctx, sendAlert, putError]
  · intro rest h h3
    simp [tls13_process_certificate, h, h3, sendAlert, putError]
  · intro rest lst rest2 h h3 htr
    simp [tls13_process_certificate, h, h3, htr, sendAlert, putError]
  · intro rest lst h h3 hne hf
    have hl := processCertList_fail1 cb ssl
      (ssl.server && ssl.retain_only_sha256_of_client_certs) [] none lst hne hf
    simp [tls13_process_certificate, h, h3, hl, sendAlert, putError]
  · intro rest lst cert bs1 h h3 hne hf1 hf2
    have hl := processCertList_fail2 cb ssl
      (ssl.server && ssl.retain_only_sha256_of_client_certs) [] none lst cert
      bs1 hne hf1 hf2
    simp [tls13_process_certificate, h, h3, hl, sendAlert, putError]
  · intro rest lst cert bs1 ext bs2 h h3 hne hf1 hf2 hc
    have hl := processCertList_fail_empty cb ssl
      (ssl.server && ssl.retain_only_sha256_of_client_certs) [] none lst cert
      bs1 ext bs2 hne hf1 hf2 hc
    simp [tls13_process_certificate, h, h3, hl, sendAlert, putError]

/-- **C3 witness**: a message whose only entry has an empty certificate body
fails with the decode-error alert and the cert-length-mismatch reason. -/
theorem process_certificate_grammar_spec_witness :
    (tls13_process_certificate
      ⟨fun c => some c.length, fun _ => true, fun _ => true, fun _ => true,
        fun c => c⟩
      { init_msg := [0, 0, 0, 5, 0, 0, 0, 0, 0] } true).2 = false ∧
    (tls13_process_certificate
      ⟨fun c => some c.length, fun _ => true, fun _ => true, fun _ => true,
        fun c => c⟩
      { init_msg := [0, 0, 0, 5, 0, 0, 0, 0, 0] } true).1.alerts =
      [(2, 50)] ∧
    (tls13_process_certificate
      ⟨fun c => some c.length, fun _ => true, fun _ => true, fun _ => true,
        fun c => c⟩
      { init_msg := [0, 0, 0, 5, 0, 0, 0, 0, 0] } true).1.errors =
      [Reason.cert_length_mismatch] := by
  have h := (process_certificate_grammar_spec
    ⟨fun c => some c.length, fun _ => true, fun _ => true, fun _ => true,
      fun c => c⟩
    { init_msg := [0, 0, 0, 5, 0, 0, 0, 0, 0] } true).2.2.2.2.2.2.2
    [0, 0, 5, 0, 0, 0, 0, 0] [0, 0, 0, 0, 0] [] [0, 0]
    [] [] (by decide) (by decide) (by decide) (by decide) (by decide)
    (by decide)
  simpa using h

/-- **C4.** Recognized certificate extensions on entries after the first are
parsed and validated identically to leaf extensions — same outcome, same
alerts, same error-queue reasons — but with the leaf flag clear the session
is completely untouched; and during the list loop, once the accumulator is
non-empty (all remaining entries are non-leaf) the session's OCSP-response
and SCT-list fields are unchanged. -/
theorem nonleaf_extensions_spec (cb : CertCallbacks) (ssl : SSLConn) :
    (∀ ext,
      (processCertEntryExtensions cb ssl false ext).2 =
        (processCertEntryExtensions cb ssl true ext).2 ∧
      (processCertEntryExtensions cb ssl false ext).1.alerts =
        (processCertEntryExtensions cb ssl true ext).1.alerts ∧
      (processCertEntryExtensions cb ssl false ext).1.errors =
        (processCertEntryExtensions cb ssl true ext).1.errors ∧
      (processCertEntryExtensions cb ssl false ext).1.session = ssl.session) ∧
    (∀ retain certs pkey bs, certs ≠ [] →
      (processCertList cb ssl retain certs pkey bs).1.session.ocsp_response =
        ssl.session.ocsp_response ∧
      (processCertList cb ssl retain certs pkey bs).1.session.sct_list =
        ssl.session.sct_list) := by
  constructor
  · intro ext
    have hobs := processCertEntryExtensions_obs cb ssl ssl false true ext
      ⟨rfl, rfl, rfl, rfl, rfl⟩
    have hsess : (processCertEntryExtensions cb ssl false ext).1.session =
        ssl.session := by
      rcases hres : processCertEntryExtensions cb ssl false ext with ⟨s2, b⟩
      cases b
      · exact (processCertEntryExtensions_false cb ssl false ext s2 hres).2.2 rfl
      · exact (processCertEntryExtensions_true cb ssl false ext s2 hres).2.2 rfl
    exact ⟨hobs.1, hobs.2.2.2.2.1, hobs.2.2.2.2.2, hsess⟩
  · intro retain certs pkey bs hne
    exact (processCertList_facts cb bs.length bs le_rfl ssl retain certs
      pkey).2.2.2 hne

/-- **C4 witness**: applied to a connection with a stored OCSP response and
a non-leaf status-request extension carrying a valid OCSP payload: the entry
validates but the session is untouched. -/
theorem nonleaf_extensions_spec_witness :
    (processCertEntryExtensions
      ⟨fun c => some c.length, fun _ => true, fun _ => true, fun _ => true,
        fun c => c⟩
      { ocsp_stapling_enabled := true,
        session := { ocsp_response := some [9] } } false
      [0, 5, 0, 6, 1, 0, 0, 2, 3, 4]).2 = true ∧
    (processCertEntryExtensions
      ⟨fun c => some c.length, fun _ => true, fun _ => true, fun _ => true,
        fun c => c⟩
      { ocsp_stapling_enabled := true,
        session := { ocsp_response := some [9] } } false
      [0, 5, 0, 6, 1, 0, 0, 2, 3, 4]).1.session.ocsp_response = some [9] ∧
    (processCertList
      ⟨fun c => some c.length, fun _ => true, fun _ => true, fun _ => true,
        fun c => c⟩
      { session := { ocsp_response := some [9] } } false [[7]] (some 1)
      []).1.session.ocsp_response = some [9] := by
  have h := nonleaf_extensions_spec
    ⟨fun c => some c.length, fun _ => true, fun _ => true, fun _ => true,
      fun c => c⟩
    { ocsp_stapling_enabled := true, session := { ocsp_response := some [9] } }
  have h2 := nonleaf_extensions_spec
    ⟨fun c => some c.length, fun _ => true, fun _ => true, fun _ => true,
      fun c => c⟩ { session := { ocsp_response := some [9] } }
  refine ⟨?_, ?_, (h2.2 false [[7]] (some 1) [] (by simp)).1⟩
  · rw [(h.1 [0, 5, 0, 6, 1, 0, 0, 2, 3, 4]).1]
    simp [processCertEntryExtensions, ssl_parse_extensions, cbsGetU16,
      cbsGetPrefixed, beVal, handleStatusRequest, handleSct, cbsGetU8,
      TLSEXT_TYPE_status_request, TLSEXT_TYPE_certificate_timestamp,
      TLSEXT_STATUSTYPE_ocsp]
  · have hss := (h.1 [0, 5, 0, 6, 1, 0, 0, 2, 3, 4]).2.2.2
    rw [hss]

/-- **C5.** A well-formed certificate message carrying zero certificates
(`[0, 0, 0, 0]`): with `allow_anonymous = false` it fails fatally with a
certificate-required alert; with `allow_anonymous = true` it succeeds, the
verify result is forced to `X509_V_OK` and the stored chain is the explicit
null marker (`none`), not an empty list. -/
theorem anonymous_certificate_spec (cb : CertCallbacks) (ssl : SSLConn)
    (hcache : ∀ s, cb.cache_objects s = true)
    (hmsg : ssl.init_msg = [0, 0, 0, 0]) :
    ((tls13_process_certificate cb ssl false).2 = false ∧
      (tls13_process_certificate cb ssl false).1.alerts =
        ssl.alerts ++ [(SSL3_AL_FATAL, SSL_AD_CERTIFICATE_REQUIRED)] ∧
      (tls13_process_certificate cb ssl false).1.errors =
        ssl.errors ++ [Reason.peer_did_not_return_a_certificate]) ∧
    ((tls13_process_certificate cb ssl true).2 = true ∧
      (tls13_process_certificate cb ssl true).1.session.verify_result =
        X509_V_OK ∧
      (tls13_process_certificate cb ssl true).1.session.certs = none) := by
  have e1 : cbsGetPrefixed 1 ssl.init_msg = some ([], [0, 0, 0]) := by
    rw [hmsg]; decide
  have e2 : cbsGetPrefixed 3 ([0, 0, 0] : List Nat) = some ([], []) := by decide
  have eloop : ∀ retain, processCertList cb ssl retain [] none [] =
      (ssl, some ([], none)) := by
    intro retain
    simp [processCertList]
  simp [tls13_process_certificate, e1, e2, eloop, hcache, commitCerts,
    sendAlert, putError, X509_V_OK]

/-- **C5 witness**: the theorem applied to a concrete connection. -/
theorem anonymous_certificate_spec_witness :
    (tls13_process_certificate
      ⟨fun c => some c.length, fun _ => true, fun _ => true, fun _ => true,
        fun c => c⟩ { init_msg := [0, 0, 0, 0] } false).2 = false ∧
    (tls13_process_certificate
      ⟨fun c => some c.length, fun _ => true, fun _ => true, fun _ => true,
        fun c => c⟩ { init_msg := [0, 0, 0, 0] } true).2 = true ∧
    (tls13_process_certificate
      ⟨fun c => some c.length, fun _ => true, fun _ => true, fun _ => true,
        fun c => c⟩ { init_msg := [0, 0, 0, 0] } true).1.session.verify_result
      = 0 := by
  have h := anonymous_certificate_spec
    ⟨fun c => some c.length, fun _ => true, fun _ => true, fun _ => true,
      fun c => c⟩ { init_msg := [0, 0, 0, 0] } (fun s => rfl) rfl
  exact ⟨h.1.1, h.2.1, h.2.2.1⟩

theorem alertOk_same {before after : List (Nat × Nat)} {ok : Bool}
    (h : after = before) : AlertOk before after ok :=
  ⟨fun _ => h, Or.inl h⟩

theorem alertOk_one {before after : List (Nat × Nat)} (a : Nat × Nat)
    (h : after = before ++ [a]) : AlertOk before after false :=
  ⟨fun ht => (nomatch ht), Or.inr ⟨a, h⟩⟩

theorem alertOk_one_ex {before after : List (Nat × Nat)}
    (h : ∃ a, after = before ++ [a]) : AlertOk before after false :=
  ⟨fun ht => (nomatch ht), Or.inr h⟩

/-- `tls13_receive_key_update` queues at most one alert and none on
success. -/
theorem receive_key_update_alertOk (ssl : SSLConn) :
    AlertOk ssl.alerts ((tls13_receive_key_update ssl).1).alerts
      ((tls13_receive_key_update ssl).2) := by
  unfold tls13_receive_key_update
  rcases cbsGetU8 ssl.init_msg with _ | ⟨b, rest⟩
  · exact alertOk_one_ex (by simp [sendAlert, putError])
  · dsimp only
    split
    · exact alertOk_one_ex (by simp [sendAlert, putError])
    · split
      · exact alertOk_same (by
          simp [tls13_rotate_traffic_key, addMessage])
      · exact alertOk_same (by simp [tls13_rotate_traffic_key])

/-- `tls13_process_finished` queues at most one alert and none on success. -/
theorem process_finished_alertOk (fm : Bool → Option (List Nat))
    (ssl : SSLConn) (use_saved : Bool) :
    AlertOk ssl.alerts ((tls13_process_finished fm ssl use_saved).1).alerts
      ((tls13_process_finished fm ssl use_saved).2) := by
  have hcomp : ∀ vd, AlertOk ssl.alerts ((finishedCompare ssl vd).1).alerts
      ((finishedCompare ssl vd).2) := by
    intro vd
    unfold finishedCompare
    split
    · exact alertOk_same rfl
    · exact alertOk_one_ex (by simp [sendAlert, putError])
  unfold tls13_process_finished
  split
  · exact hcomp _
  · rcases fm (!ssl.server) with _ | vd
    · exact alertOk_same rfl
    · exact hcomp _

/-- `tls13_process_certificate_verify` queues at most one alert and none on
success. -/
theorem process_certificate_verify_alertOk (cps : Nat → Option Nat)
    (pkv : List Nat → Nat → Nat → List Nat → Bool) (ssl : SSLConn) :
    AlertOk ssl.alerts
      ((tls13_process_certificate_verify cps pkv ssl).1).alerts
      ((tls13_process_certificate_verify cps pkv ssl).2) := by
  unfold tls13_process_certificate_verify
  rcases ssl.peer_pubkey with _ | pk
  · exact alertOk_same (by simp [putError])
  · dsimp only
    rcases cbsGetU16 ssl.init_msg with _ | ⟨alg, rest⟩
    · exact alertOk_one_ex (by simp [sendAlert, putError])
    · dsimp only
      rcases cbsGetPrefixed 2 rest with _ | ⟨sig, rest2⟩
      · exact alertOk_one_ex (by simp [sendAlert, putError])
      · dsimp only
        split
        · exact alertOk_one_ex (by simp [sendAlert, putError])
        · rcases cps alg with _ | alert
          · dsimp only
            split
            all_goals
              split
              · exact alertOk_same rfl
              · exact alertOk_one_ex
                  (by simp [sendAlert, putError, setPeerSigAlg])
          · exact alertOk_one_ex (by simp [sendAlert])

/-- `tls13_process_certificate` queues at most one alert and none on
success. -/
theorem process_certificate_alertOk (cb : CertCallbacks) (ssl : SSLConn)
    (aa : Bool) :
    AlertOk ssl.alerts ((tls13_process_certificate cb ssl aa).1).alerts
      ((tls13_process_certificate cb ssl aa).2) := by
  unfold tls13_process_certificate
  rcases cbsGetPrefixed 1 ssl.init_msg with _ | ⟨ctx, rest⟩
  · exact alertOk_one_ex (by simp [sendAlert, putError])
  · dsimp only
    split
    · exact alertOk_one_ex (by simp [sendAlert, putError])
    · rcases cbsGetPrefixed 3 rest with _ | ⟨lst, rest2⟩
      · exact alertOk_one_ex (by simp [sendAlert, putError])
      · dsimp only
        split
        · exact alertOk_one_ex (by simp [sendAlert, putError])
        · have hfacts := processCertList_facts cb lst.length lst le_rfl ssl
            (ssl.server && ssl.retain_only_sha256_of_client_certs) [] none
          rcases hloop : processCertList cb ssl
              (ssl.server && ssl.retain_only_sha256_of_client_certs)
              [] none lst with ⟨sslL, r⟩
          rw [hloop] at hfacts
          rcases r with _ | ⟨certs, pkey⟩
          · dsimp only
            obtain ⟨a, ha⟩ := hfacts.2.2.1 rfl
            exact alertOk_one a ha
          · dsimp only
            have hA : sslL.alerts = ssl.alerts :=
              (hfacts.2.1 (certs, pkey) rfl).1
            split
            · exact alertOk_one_ex
                (by simp [sendAlert, putError, commitCerts, hA])
            · split
              · split
                · exact alertOk_one_ex
                    (by simp [sendAlert, putError, commitCerts, hA])
                · exact alertOk_same (by simp [commitCerts, hA])
              · exact alertOk_same (by simp [commitCerts, hA])

/-- `tls13_post_handshake` queues at most one alert and none on success,
provided the external ticket handler does the same. -/
theorem post_handshake_alertOk (th : SSLConn → SSLConn × Bool)
    (hth : ∀ s, AlertOk s.alerts ((th s).1).alerts ((th s).2)) (ssl : SSLConn) :
    AlertOk ssl.alerts ((tls13_post_handshake th ssl).1).alerts
      ((tls13_post_handshake th ssl).2) := by
  unfold tls13_post_handshake
  split
  · dsimp only
    split
    · exact alertOk_one_ex (by simp [sendAlert, putError])
    · exact receive_key_update_alertOk _
  · dsimp only
    split
    · exact hth _
    · exact alertOk_one_ex (by simp [sendAlert, putError])

/-- **C8 counterexample.** The claim "every fatal path sends exactly one
protocol alert before returning" is false on the code:
`tls13_process_certificate_verify` with a missing peer public key
(tls13_both.cc lines 362–365) returns the failure outcome having pushed only
an internal-error reason — no alert is sent. -/
theorem alert_discipline_counterexample :
    (tls13_process_certificate_verify (fun _ => none) (fun _ _ _ _ => true)
      {}).2 = false ∧
    (tls13_process_certificate_verify (fun _ => none) (fun _ _ _ _ => true)
      {}).1.alerts = [] ∧
    (tls13_process_certificate_verify (fun _ => none) (fun _ _ _ _ => true)
      {}).1.errors = [Reason.internal_error] := by
  refine ⟨rfl, rfl, rfl⟩

/-- **C8 (amended).** Every handler invocation — certificate processing,
CertificateVerify processing, Finished verification, key-update receipt and
post-handshake dispatch — sends at most one protocol alert, and sends none
on a successful run.  (Not every fatal path sends an alert: internal-error
and collaborator-failure paths may return without one, as the counterexample
shows; the malformed-input fatal paths proved in the other theorems each
send exactly one.) -/
theorem handlers_alert_discipline (cb : CertCallbacks)
    (cps : Nat → Option Nat) (pkv : List Nat → Nat → Nat → List Nat → Bool)
    (fm : Bool → Option (List Nat)) (th : SSLConn → SSLConn × Bool)
    (hth : ∀ s, AlertOk s.alerts ((th s).1).alerts ((th s).2))
    (ssl : SSLConn) (aa use_saved : Bool) :
    AlertOk ssl.alerts ((tls13_process_certificate cb ssl aa).1).alerts
      ((tls13_process_certificate cb ssl aa).2) ∧
    AlertOk ssl.alerts
      ((tls13_process_certificate_verify cps pkv ssl).1).alerts
      ((tls13_process_certificate_verify cps pkv ssl).2) ∧
    AlertOk ssl.alerts ((tls13_process_finished fm ssl use_saved).1).alerts
      ((tls13_process_finished fm ssl use_saved).2) ∧
    AlertOk ssl.alerts ((tls13_receive_key_update ssl).1).alerts
      ((tls13_receive_key_update ssl).2) ∧
    AlertOk ssl.alerts ((tls13_post_handshake th ssl).1).alerts
      ((tls13_post_handshake th ssl).2) :=
  ⟨process_certificate_alertOk cb ssl aa,
    process_certificate_verify_alertOk cps pkv ssl,
    process_finished_alertOk fm ssl use_saved,
    receive_key_update_alertOk ssl,
    post_handshake_alertOk th hth ssl⟩

/-- **C8 witness**: the amended discipline instantiated on concrete runs —
a malformed KeyUpdate sends exactly one alert; a successful KeyUpdate sends
none. -/
theorem handlers_alert_discipline_witness :
    ((tls13_receive_key_update { init_msg := [7] }).1.alerts = [] ∨
      ∃ a, (tls13_receive_key_update { init_msg := [7] }).1.alerts = [] ++ [a]) ∧
    ((tls13_receive_key_update { init_msg := [0] }).2 = true →
      (tls13_receive_key_update { init_msg := [0] }).1.alerts = []) := by
  have h := handlers_alert_discipline
    ⟨fun c => some c.length, fun _ => true, fun _ => true, fun _ => true,
      fun c => c⟩
    (fun _ => none) (fun _ _ _ _ => true) (fun _ => some [1])
    (fun s => (s, true)) (fun s => ⟨fun _ => rfl, Or.inl rfl⟩)
    { init_msg := [7] } true false
  have h2 := handlers_alert_discipline
    ⟨fun c => some c.length, fun _ => true, fun _ => true, fun _ => true,
      fun c => c⟩
    (fun _ => none) (fun _ _ _ _ => true) (fun _ => some [1])
    (fun s => (s, true)) (fun s => ⟨fun _ => rfl, Or.inl rfl⟩)
    { init_msg := [0] } true false
  exact ⟨h.2.2.2.1.2, h2.2.2.2.1.1⟩

/-- Evaluation: an empty extension block parses to no extensions. -/
theorem processCertEntryExtensions_nil (cb : CertCallbacks) (ssl : SSLConn)
    (l : Bool) : processCertEntryExtensions cb ssl l [] = (ssl, true) := by
  simp [processCertEntryExtensions, ssl_parse_extensions, handleStatusRequest,
    handleSct]

/-- Analysis of a successful certificate-list loop run: the final stack is
the accumulator plus the decoded entries; every decoded entry is non-empty
and fits a 24-bit length; re-encoding the decoded entries with empty
extension blocks is no longer than the input; and when the loop started the
chain, the leaf's public key was parsed, its key usage checked, and it is
the returned key. -/
theorem processCertList_ok_analysis (cb : CertCallbacks) :
    ∀ (n : Nat) (bs : List Nat), bs.length ≤ n →
    ∀ (ssl : SSLConn) (retain : Bool) (certs0 : List (List Nat))
      (pkey0 : Option Nat) (sslL : SSLConn) (cf : List (List Nat))
      (pf : Option Nat),
      processCertList cb ssl retain certs0 pkey0 bs = (sslL, some (cf, pf)) →
      (∀ b ∈ bs, b < 256) →
      ∃ es, cf = certs0 ++ es ∧
        (∀ c ∈ es, c ≠ [] ∧ c.length < 256 ^ 3) ∧
        ((es.flatMap fun c => cbbAddPrefixed 3 c ++ beBytes 2 0).length ≤
          bs.length) ∧
        (certs0 = [] → ∀ L cs, es = L :: cs →
          ∃ p, cb.parse_pubkey L = some p ∧ cb.check_key_usage L = true ∧
            pf = some p) ∧
        (certs0 ≠ [] → pf = pkey0) := by
  intro n
  induction n with
  | zero =>
    intro bs hbs ssl retain certs0 pkey0 sslL cf pf hrun hbytes
    have hnil : bs = [] := List.length_eq_zero.mp (Nat.le_zero.mp hbs)
    subst hnil
    unfold processCertList at hrun
    simp only [List.isEmpty_nil, if_true] at hrun
    injection hrun with h1 h2
    injection h2 with h2
    injection h2 with hcf hpf
    subst hcf; subst hpf
    exact ⟨[], by simp, by simp, by simp, by simp, fun _ => rfl⟩
  | succ k ih =>
    intro bs hbs ssl retain certs0 pkey0 sslL cf pf hrun hbytes
    by_cases hbe : bs.isEmpty
    · unfold processCertList at hrun
      rw [if_pos hbe] at hrun
      injection hrun with h1 h2
      injection h2 with h2
      injection h2 with hcf hpf
      subst hcf; subst hpf
      exact ⟨[], by simp, by simp, by simp, by simp, fun _ => rfl⟩
    · unfold processCertList at hrun
      rw [if_neg hbe] at hrun
      split at hrun
      · simp at hrun
      · rename_i cert bs1 h1
        split at hrun
        · simp at hrun
        · rename_i ext bs2 h2
          split at hrun
          · simp at hrun
          · rename_i hclen
            split at hrun
            · simp at hrun
            · rename_i s1 pk1 hleaf
              split at hrun
              · simp at hrun
              · rename_i s2 hext
                have hp1 := cbsGetPrefixed_some 3 bs cert bs1 h1
                have hp2 := cbsGetPrefixed_some 2 bs1 ext bs2 h2
                have hmem1 := cbsGetPrefixed_mem 3 bs cert bs1 h1
                have hmem2 := cbsGetPrefixed_mem 2 bs1 ext bs2 h2
                have hlen2 : bs2.length ≤ k := by omega
                have hbytes2 : ∀ b ∈ bs2, b < 256 :=
                  fun b hb => hbytes b (hmem1.2 b (hmem2.2 b hb))
                obtain ⟨es, hcf, hprops, henc, hleafcase, hnonleaf⟩ :=
                  ih bs2 hlen2 s2 retain (certs0 ++ [cert]) pk1 sslL cf pf
                    hrun hbytes2
                have hcertlen : cert.length < 256 ^ 3 :=
                  cbsGetPrefixed_len_lt 3 bs cert bs1 h1 hbytes
                refine ⟨cert :: es, ?_, ?_, ?_, ?_, ?_⟩
                · rw [hcf, List.append_assoc]
                  rfl
                · intro c hc
                  rcases List.mem_cons.mp hc with hceq | hc2
                  · subst hceq
                    refine ⟨?_, hcertlen⟩
                    intro hnil
                    rw [hnil] at hclen
                    exact hclen rfl
                  · exact hprops c hc2
                · have hb3 : (cbbAddPrefixed 3 cert).length =
                      3 + cert.length := by
                    simp [cbbAddPrefixed, beBytes_length]
                  have hb2 : (beBytes 2 0).length = 2 := beBytes_length 2 0
                  simp only [List.flatMap_cons, List.length_append, hb3, hb2]
                  omega
                · intro hc0 L cs hes
                  injection hes with hL hcs
                  subst hL
                  subst hc0
                  have hfirst : (([] : List (List Nat)).length == 0) = true :=
                    rfl
                  have hlf := processLeafChecks_inr cb ssl retain
                    (([] : List (List Nat)).length == 0) pkey0 cert s1 pk1
                    hleaf
                  obtain ⟨p, hpk, hku, hpk1⟩ := hlf.2.2.2.2.2.1 rfl
                  refine ⟨p, hpk, hku, ?_⟩
                  rw [hnonleaf (by simp), hpk1]
                · intro hne
                  have hfirst : (certs0.length == 0) = false := by
                    rcases certs0 with _ | ⟨c0, cs0⟩
                    · exact absurd rfl hne
                    · rfl
                  have hlf := processLeafChecks_inr cb ssl retain
                    (certs0.length == 0) pkey0 cert s1 pk1 hleaf
                  have hpk1 := (hlf.2.2.2.2.2.2 hfirst).2
                  rw [hnonleaf (by simp), hpk1]

/-- Running the certificate-list loop over re-encoded entries (each with an
empty extension block) with a non-empty accumulator succeeds, pushes exactly
those entries, and changes neither the connection nor the key. -/
theorem processCertList_encoded_nonleaf (cb : CertCallbacks) :
    ∀ (es : List (List Nat)) (ssl : SSLConn) (retain : Bool)
      (certs0 : List (List Nat)) (pkey0 : Option Nat),
      (∀ c ∈ es, c ≠ [] ∧ c.length < 256 ^ 3) →
      certs0 ≠ [] →
      processCertList cb ssl retain certs0 pkey0
        (es.flatMap fun c => cbbAddPrefixed 3 c ++ beBytes 2 0) =
      (ssl, some (certs0 ++ es, pkey0)) := by
  intro es
  induction es with
  | nil =>
    intro ssl retain certs0 pkey0 hprops hne
    simp [processCertList]
  | cons c cs ih =>
    intro ssl retain certs0 pkey0 hprops hne
    have hc := hprops c (List.mem_cons_self c cs)
    have hne' : ((c :: cs).flatMap fun x =>
        cbbAddPrefixed 3 x ++ beBytes 2 0) ≠ [] := by
      intro h
      have hl := congrArg List.length h
      simp only [List.flatMap_cons, List.length_append, cbbAddPrefixed,
        beBytes_length, List.length_nil] at hl
      omega
    have hbe2 : ((c :: cs).flatMap fun x =>
        cbbAddPrefixed 3 x ++ beBytes 2 0).isEmpty = false := by
      rcases hcase : ((c :: cs).flatMap fun x =>
          cbbAddPrefixed 3 x ++ beBytes 2 0) with _ | ⟨b, bs⟩
      · exact absurd hcase hne'
      · rfl
    have hps : cbsGetPrefixed 3
        ((c :: cs).flatMap fun x => cbbAddPrefixed 3 x ++ beBytes 2 0) =
        some (c, beBytes 2 0 ++
          cs.flatMap fun x => cbbAddPrefixed 3 x ++ beBytes 2 0) := by
      rw [List.flatMap_cons, List.append_assoc]
      exact cbsGetPrefixed_cbbAddPrefixed 3 c _ hc.2
    have hext : cbsGetPrefixed 2
        (beBytes 2 0 ++
          cs.flatMap fun x => cbbAddPrefixed 3 x ++ beBytes 2 0) =
        some ([], cs.flatMap fun x => cbbAddPrefixed 3 x ++ beBytes 2 0) := by
      have h0 : (beBytes 2 0 : List Nat) = cbbAddPrefixed 2 [] := by
        simp [cbbAddPrefixed]
      rw [h0]
      exact cbsGetPrefixed_cbbAddPrefixed 2 [] _ (by norm_num)
    have hclen' : (c.length = 0) = False :=
      eq_false (fun h0 => hc.1 (List.length_eq_zero.mp h0))
    have hfirst : (certs0.length == 0) = false := by
      rcases certs0 with _ | _
      · exact absurd rfl hne
      · rfl
    have hmono : ∀ x ∈ cs, x ≠ [] ∧ x.length < 256 ^ 3 :=
      fun x hx => hprops x (List.mem_cons_of_mem c hx)
    rw [processCertList.eq_def]
    simp only [hbe2, Bool.false_eq_true, if_false, processLeafChecks, hfirst]
    split
    · rename_i heq
      rw [hps] at heq
      simp at heq
    · rename_i cert bs1 heq
      rw [hps] at heq
      injection heq with heq
      injection heq with hceq hbs1
      subst hceq
      subst hbs1
      split
      · rename_i heq2
        rw [hext] at heq2
        simp at heq2
      · rename_i ext bs2 heq2
        rw [hext] at heq2
        injection heq2 with heq2
        injection heq2 with hexteq hbs2
        subst hexteq
        subst hbs2
        rw [if_neg (fun h0 => hc.1 (List.length_eq_zero.mp h0))]
        simp only [processCertEntryExtensions_nil]
        rw [ih ssl retain (certs0 ++ [c]) pkey0 hmono (by simp)]
        simp

/-- Running the certificate-list loop over re-encoded entries starting from
the leaf: when the leaf's public key parses and its key usage checks out, the
loop succeeds with exactly those entries and that key, leaving the
connection unchanged (retain-SHA256 off). -/
theorem processCertList_encoded_leaf (cb : CertCallbacks) (ssl : SSLConn)
    (L : List Nat) (cs : List (List Nat)) (p : Nat)
    (hL : L ≠ [] ∧ L.length < 256 ^ 3)
    (hcs : ∀ c ∈ cs, c ≠ [] ∧ c.length < 256 ^ 3)
    (hp : cb.parse_pubkey L = some p)
    (hku : cb.check_key_usage L = true) :
    processCertList cb ssl false [] none
      ((L :: cs).flatMap fun c => cbbAddPrefixed 3 c ++ beBytes 2 0) =
    (ssl, some (L :: cs, some p)) := by
  have hne' : ((L :: cs).flatMap fun x =>
      cbbAddPrefixed 3 x ++ beBytes 2 0) ≠ [] := by
    intro h
    have hl := congrArg List.length h
    simp only [List.flatMap_cons, List.length_append, cbbAddPrefixed,
      beBytes_length, List.length_nil] at hl
    omega
  have hbe2 : ((L :: cs).flatMap fun x =>
      cbbAddPrefixed 3 x ++ beBytes 2 0).isEmpty = false := by
    rcases hcase : ((L :: cs).flatMap fun x =>
        cbbAddPrefixed 3 x ++ beBytes 2 0) with _ | ⟨b, bs⟩
    · exact absurd hcase hne'
    · rfl
  have hps : cbsGetPrefixed 3
      ((L :: cs).flatMap fun x => cbbAddPrefixed 3 x ++ beBytes 2 0) =
      some (L, beBytes 2 0 ++
        cs.flatMap fun x => cbbAddPrefixed 3 x ++ beBytes 2 0) := by
    rw [List.flatMap_cons, List.append_assoc]
    exact cbsGetPrefixed_cbbAddPrefixed 3 L _ hL.2
  have hext : cbsGetPrefixed 2
      (beBytes 2 0 ++
        cs.flatMap fun x => cbbAddPrefixed 3 x ++ beBytes 2 0) =
      some ([], cs.flatMap fun x => cbbAddPrefixed 3 x ++ beBytes 2 0) := by
    have h0 : (beBytes 2 0 : List Nat) = cbbAddPrefixed 2 [] := by
      simp [cbbAddPrefixed]
    rw [h0]
    exact cbsGetPrefixed_cbbAddPrefixed 2 [] _ (by norm_num)
  rw [processCertList.eq_def]
  simp only [hbe2, Bool.false_eq_true, if_false]
  split
  · rename_i heq
    rw [hps] at heq
    simp at heq
  · rename_i cert bs1 heq
    rw [hps] at heq
    injection heq with heq
    injection heq with hceq hbs1
    subst hceq
    subst hbs1
    split
    · rename_i heq2
      rw [hext] at heq2
      simp at heq2
    · rename_i ext bs2 heq2
      rw [hext] at heq2
      injection heq2 with heq2
      injection heq2 with hexteq hbs2
      subst hexteq
      subst hbs2
      rw [if_neg (fun h0 => hL.1 (List.length_eq_zero.mp h0))]
      have hleaf : processLeafChecks cb ssl false
          ((([] : List (List Nat)).length == 0)) none L =
          .inr (ssl, some p) := by
        simp [processLeafChecks, hp, hku]
      simp only [hleaf, processCertEntryExtensions_nil]
      rw [List.nil_append]
      rw [processCertList_encoded_nonleaf cb cs ssl false [L] (some p) hcs
        (by simp)]
      rfl

/-- `tls13_add_certificate` on a non-empty chain with neither SCTs nor OCSP
stapling requested: the queued Certificate body is the empty context byte
followed by the 24-bit-prefixed concatenation of the entries, each a
24-bit-prefixed certificate with an empty 16-bit extension block. -/
theorem add_certificate_noext (ssl : SSLConn) (L : List Nat)
    (chain : List (List Nat))
    (henc : ssl.cert_chain = some (L :: chain))
    (hsct : ssl.scts_requested = false)
    (hocsp : ssl.ocsp_stapling_requested = false) :
    tls13_add_certificate ssl =
      (addMessage ssl SSL3_MT_CERTIFICATE
        ([0] ++ cbbAddPrefixed 3
          ((L :: chain).flatMap fun c => cbbAddPrefixed 3 c ++ beBytes 2 0)),
        true) := by
  unfold tls13_add_certificate
  rw [henc]
  rcases hs : ssl.cert_sct with _ | sl <;>
  rcases ho : ssl.cert_ocsp with _ | oc <;>
    simp [hs, ho, hsct, hocsp, cbbAddPrefixed, List.flatMap_cons,
      List.append_assoc]

/-- Helper: the pad loop appends `n` copies of `0x20`. -/
theorem addPadLoop_eq (n : Nat) (acc : List Nat) :
    addPadLoop n acc = acc ++ List.replicate n 0x20 := by
  induction n generalizing acc with
  | zero => simp [addPadLoop]
  | succ k ih =>
    rw [addPadLoop, ih, List.append_assoc, List.replicate_succ]
    rfl

/-- **C7.** For every transcript hash and every valid context label, the
signature input is exactly 64 bytes of `0x20`, the fixed context string
selected by the label including its terminating NUL byte, then the
transcript hash bytes; and the construction is deterministic. -/
theorem cert_verify_signature_input_spec (h1 h2 : List Nat)
    (c : CertVerifyContextT) :
    tls13_get_cert_verify_signature_input h1 c =
      List.replicate 64 0x20 ++ certVerifyContextBytes c ++ h1 ∧
    (certVerifyContextBytes c).getLast? = some 0 ∧
    certVerifyContextBytes .ssl_cert_verify_server =
      strBytes "TLS 1.3, server CertificateVerify" ++ [0] ∧
    certVerifyContextBytes .ssl_cert_verify_client =
      strBytes "TLS 1.3, client CertificateVerify" ++ [0] ∧
    certVerifyContextBytes .ssl_cert_verify_channel_id =
      strBytes "TLS 1.3, Channel ID" ++ [0] ∧
    (h1 = h2 →
      tls13_get_cert_verify_signature_input h1 c =
        tls13_get_cert_verify_signature_input h2 c) := by
  refine ⟨?_, ?_, rfl, rfl, rfl, fun h => by rw [h]⟩
  · simp [tls13_get_cert_verify_signature_input, addPadLoop_eq]
  · cases c <;> simp [certVerifyContextBytes]

/-- **C7 witness**: the theorem applied to a concrete hash and the
channel-id context. -/
theorem cert_verify_signature_input_spec_witness :
    tls13_get_cert_verify_signature_input [171, 5] .ssl_cert_verify_channel_id =
      List.replicate 64 0x20 ++
        (strBytes "TLS 1.3, Channel ID" ++ [0]) ++ [171, 5] :=
  (cert_verify_signature_input_spec [171, 5] [171, 5]
    .ssl_cert_verify_channel_id).1

/-- **C6.** `tls13_process_finished` succeeds iff the received message equals
the expected MAC value — same length and same bytes; any mismatch (wrong
length with any content, or equal length with any byte changed) fails with a
fatal decrypt-error alert and a digest-check-failed reason; on success the
state is untouched.  The saved-value mode compares against the saved expected
client Finished with the same exact comparison. -/
theorem process_finished_spec (fm : Bool → Option (List Nat)) (hs : SSLConn)
    (use_saved : Bool) (expected : List Nat)
    (hexp : (if use_saved then some (hs.expected_client_finished.take hs.hash_len)
             else fm (!hs.server)) = some expected) :
    ((tls13_process_finished fm hs use_saved).2 = true ↔ hs.init_msg = expected) ∧
    (hs.init_msg ≠ expected →
      (tls13_process_finished fm hs use_saved).2 = false ∧
      (tls13_process_finished fm hs use_saved).1.alerts =
        hs.alerts ++ [(SSL3_AL_FATAL, SSL_AD_DECRYPT_ERROR)] ∧
      (tls13_process_finished fm hs use_saved).1.errors =
        hs.errors ++ [Reason.digest_check_failed]) ∧
    (hs.init_msg.length ≠ expected.length →
      (tls13_process_finished fm hs use_saved).2 = false) ∧
    (hs.init_msg = expected → (tls13_process_finished fm hs use_saved).1 = hs) := by
  have hred : tls13_process_finished fm hs use_saved = finishedCompare hs expected := by
    cases use_saved with
    | true =>
      simp only [if_true] at hexp
      injection hexp with hexp
      simp [tls13_process_finished, hexp]
    | false =>
      simp only [Bool.false_eq_true, if_false] at hexp
      simp [tls13_process_finished, hexp]
  rw [hred]
  by_cases heq : hs.init_msg = expected
  · simp [finishedCompare, heq]
  · simp [finishedCompare, heq, sendAlert, putError]

/-- **C6 witness**: identical input succeeds; a one-byte flip of correct
length fails with the decrypt-error alert; a wrong-length input fails. -/
theorem process_finished_spec_witness :
    (tls13_process_finished (fun _ => some [7, 8]) { init_msg := [7, 8] } false).2
      = true ∧
    (tls13_process_finished (fun _ => some [7, 8]) { init_msg := [7, 9] } false).2
      = false ∧
    (tls13_process_finished (fun _ => some [7, 8]) { init_msg := [7, 9] }
      false).1.alerts = [(2, 51)] ∧
    (tls13_process_finished (fun _ => some [7, 8]) { init_msg := [7] } false).2
      = false := by
  have h1 := process_finished_spec (fun _ => some [7, 8]) { init_msg := [7, 8] }
    false [7, 8] rfl
  have h2 := process_finished_spec (fun _ => some [7, 8]) { init_msg := [7, 9] }
    false [7, 8] rfl
  have h3 := process_finished_spec (fun _ => some [7, 8]) { init_msg := [7] }
    false [7, 8] rfl
  refine ⟨h1.1.mpr rfl, (h2.2.1 (by decide)).1, ?_, h3.2.2.1 (by decide)⟩
  have := (h2.2.1 (by decide)).2.1
  simpa [SSL3_AL_FATAL, SSL_AD_DECRYPT_ERROR] using this

/-- **C9.** Decode → encode → decode on certificate chains is idempotent
for the leaf certificate bytes and the derived peer public key: if a first
decode of a well-formed Certificate message succeeds with chain
`L :: restChain`, and that chain is re-encoded by `tls13_add_certificate`
(no SCTs or OCSP stapling requested) into a message body, then decoding
that body again succeeds, yields exactly the same chain — in particular
the same leaf bytes `L` — and derives the same peer public key, namely
the one `ssl_cert_parse_pubkey` extracts from `L` both times. -/
theorem certificate_roundtrip_spec
    (cb : CertCallbacks) (ssl1 ssl2 ssl3 : SSLConn) (aa aa2 : Bool)
    (L : List Nat) (restChain : List (List Nat)) (body : List Nat)
    (hbytes : ∀ b ∈ ssl1.init_msg, b < 256)
    (hcache : ∀ s, cb.cache_objects s = true)
    (hok : (tls13_process_certificate cb ssl1 aa).2 = true)
    (hchain : (tls13_process_certificate cb ssl1 aa).1.session.certs =
      some (L :: restChain))
    (henc : ssl2.cert_chain = some (L :: restChain))
    (hsct : ssl2.scts_requested = false)
    (hocsp : ssl2.ocsp_stapling_requested = false)
    (hbody : (tls13_add_certificate ssl2).1.sent =
      ssl2.sent ++ [(SSL3_MT_CERTIFICATE, body)])
    (hmsg3 : ssl3.init_msg = body)
    (hclient3 : ssl3.server = false) :
    ∃ p, cb.parse_pubkey L = some p ∧
      (tls13_process_certificate cb ssl1 aa).1.peer_pubkey = some p ∧
      (tls13_process_certificate cb ssl3 aa2).2 = true ∧
      (tls13_process_certificate cb ssl3 aa2).1.session.certs =
        some (L :: restChain) ∧
      (tls13_process_certificate cb ssl3 aa2).1.peer_pubkey = some p := by
  obtain ⟨rest, lst, sslL, certs, pkey, hp1, hp3, hloop, hcerts, hpk⟩ :=
    process_certificate_ok_inv cb ssl1 aa hok
  rw [hchain] at hcerts
  have hcertsval : certs = L :: restChain := by
    by_cases h0 : certs.length = 0
    · rw [if_pos h0] at hcerts
      cases hcerts
    · rw [if_neg h0] at hcerts
      injection hcerts with h
      exact h.symm
  subst hcertsval
  have hmem1 := cbsGetPrefixed_mem 1 ssl1.init_msg [] rest hp1
  have hrb : ∀ b ∈ rest, b < 256 := fun b hb => hbytes b (hmem1.2 b hb)
  have hbl : ∀ b ∈ lst, b < 256 := fun b hb =>
    hrb b ((cbsGetPrefixed_mem 3 rest lst [] hp3).1 b hb)
  have hlstlen : lst.length < 256 ^ 3 :=
    cbsGetPrefixed_len_lt 3 rest lst [] hp3 hrb
  obtain ⟨es, hcf, hprops, hencbd, hleafcase, _⟩ :=
    processCertList_ok_analysis cb lst.length lst le_rfl ssl1
      (ssl1.server && ssl1.retain_only_sha256_of_client_certs) [] none sslL
      (L :: restChain) pkey hloop hbl
  have hes : es = L :: restChain := by simpa using hcf.symm
  subst hes
  obtain ⟨p, hppk, hku, hpkey⟩ := hleafcase rfl L restChain rfl
  have haddc := add_certificate_noext ssl2 L restChain henc hsct hocsp
  rw [haddc] at hbody
  simp only [addMessage, List.append_cancel_left_eq] at hbody
  have hbodyval : body = [0] ++ cbbAddPrefixed 3
      ((L :: restChain).flatMap fun c => cbbAddPrefixed 3 c ++ beBytes 2 0) := by
    have := hbody
    simp at this
    simp only [List.flatMap_cons, List.append_assoc, List.singleton_append]
    exact this.symm
  have hp1' : cbsGetPrefixed 1 ssl3.init_msg = some ([],
      cbbAddPrefixed 3
        ((L :: restChain).flatMap fun c =>
          cbbAddPrefixed 3 c ++ beBytes 2 0)) := by
    rw [hmsg3, hbodyval]
    have h01 : ([0] : List Nat) = cbbAddPrefixed 1 [] := by decide
    rw [h01]
    exact cbsGetPrefixed_cbbAddPrefixed 1 [] _ (by norm_num)
  have hlen3 : ((L :: restChain).flatMap fun c =>
      cbbAddPrefixed 3 c ++ beBytes 2 0).length < 256 ^ 3 :=
    lt_of_le_of_lt hencbd hlstlen
  have hp3' : cbsGetPrefixed 3 (cbbAddPrefixed 3
      ((L :: restChain).flatMap fun c =>
        cbbAddPrefixed 3 c ++ beBytes 2 0)) =
      some ((L :: restChain).flatMap fun c =>
        cbbAddPrefixed 3 c ++ beBytes 2 0, []) := by
    have h := cbsGetPrefixed_cbbAddPrefixed 3
      ((L :: restChain).flatMap fun c => cbbAddPrefixed 3 c ++ beBytes 2 0)
      [] hlen3
    simpa using h
  have hLprops : L ≠ [] ∧ L.length < 256 ^ 3 :=
    hprops L (List.mem_cons_self L restChain)
  have hcsprops : ∀ c ∈ restChain, c ≠ [] ∧ c.length < 256 ^ 3 :=
    fun c hc => hprops c (List.mem_cons_of_mem L hc)
  have hloop' : processCertList cb ssl3
      (ssl3.server && ssl3.retain_only_sha256_of_client_certs) [] none
      ((L :: restChain).flatMap fun c => cbbAddPrefixed 3 c ++ beBytes 2 0) =
      (ssl3, some (L :: restChain, some p)) := by
    rw [hclient3]
    exact processCertList_encoded_leaf cb ssl3 L restChain p hLprops hcsprops
      hppk hku
  have hred := process_certificate_reduce cb ssl3 aa2 _ _ ssl3
    (L :: restChain) (some p) hp1' hp3' hloop'
  refine ⟨p, hppk, by rw [hpk]; exact hpkey, ?_, ?_, ?_⟩ <;>
    rw [hred] <;>
    rw [if_neg (by simp [hcache])] <;>
    rw [if_neg (by simp [commitCerts])] <;>
    simp [commitCerts]

/-- **C9 witness**: the concrete one-certificate message
`[0, 0,0,6, 0,0,1,7, 0,0]` decodes to chain `[[7]]`, re-encodes to the very
same bytes, and the second decode yields the same leaf `[7]` and the same
derived public key. -/
theorem certificate_roundtrip_spec_witness :
    ∃ p, some ([7] : List Nat).length = some p ∧
      (tls13_process_certificate
        ⟨fun c => some c.length, fun _ => true, fun _ => true, fun _ => true,
          fun c => c⟩
        { init_msg := [0, 0, 0, 6, 0, 0, 1, 7, 0, 0] } true).1.peer_pubkey
        = some p ∧
      (tls13_process_certificate
        ⟨fun c => some c.length, fun _ => true, fun _ => true, fun _ => true,
          fun c => c⟩
        { init_msg := [0, 0, 0, 6, 0, 0, 1, 7, 0, 0] } true).2 = true ∧
      (tls13_process_certificate
        ⟨fun c => some c.length, fun _ => true, fun _ => true, fun _ => true,
          fun c => c⟩
        { init_msg := [0, 0, 0, 6, 0, 0, 1, 7, 0, 0] } true).1.session.certs
        = some [[7]] ∧
      (tls13_process_certificate
        ⟨fun c => some c.length, fun _ => true, fun _ => true, fun _ => true,
          fun c => c⟩
        { init_msg := [0, 0, 0, 6, 0, 0, 1, 7, 0, 0] } true).1.peer_pubkey
        = some p := by
  exact certificate_roundtrip_spec
    ⟨fun c => some c.length, fun _ => true, fun _ => true, fun _ => true,
      fun c => c⟩
    { init_msg := [0, 0, 0, 6, 0, 0, 1, 7, 0, 0] }
    { cert_chain := some [[7]] }
    { init_msg := [0, 0, 0, 6, 0, 0, 1, 7, 0, 0] }
    true true [7] [] [0, 0, 0, 6, 0, 0, 1, 7, 0, 0]
    (by decide) (fun _ => rfl)
    (by simp [tls13_process_certificate, processCertList, cbsGetPrefixed,
      beVal, processLeafChecks, processCertEntryExtensions,
      ssl_parse_extensions, commitCerts, beBytes, cbsGetU16,
      handleStatusRequest, handleSct])
    (by simp [tls13_process_certificate, processCertList, cbsGetPrefixed,
      beVal, processLeafChecks, processCertEntryExtensions,
      ssl_parse_extensions, commitCerts, beBytes, cbsGetU16,
      handleStatusRequest, handleSct])
    rfl rfl rfl
    (by decide)
    rfl rfl

end Tls13Both
